import Mathlib

/-!
# Verification of the resilient rate retrieval engine (`api/convert.js`)

A shallow embedding of the conversion endpoint: query validation, the
TTL rate cache, the retrying upstream fetcher, the layered fallback chain
and the response assembler, together with theorems about the behaviour
claimed in the specification.

Modelling conventions:
* JavaScript numbers in request amounts and rate tables are modelled as
  exact rationals; a plain decimal literal denotes its exact decimal value
  (IEEE-754 double rounding is not modelled).
* `Date.now()` is modelled by explicit integer timestamps passed to each
  call site in program order (`t0` for the first cache read, `t1` for the
  cache write or the degraded cache read).
* The upstream network is modelled by a function from the attempt index to
  the observable outcome of that attempt: a parsed OK response, a non-OK
  HTTP status, or a thrown error (timeouts abort with name `AbortError`,
  network errors throw with other names such as `TypeError`).
* JS objects and `Map`s are association lists; `Map.set` replaces in
  place, `Map.delete` removes the entry, property lookup takes the first
  binding.
* Side effects relevant to the claims (cache reads/writes, upstream fetch
  calls, the `console.warn` calls of the handler) are recorded in an event
  trace.  `console` calls inside `fetchRates` are not traced.
-/

namespace Convert

/-- A JSON-ish value appearing in a serialized response body. -/
inductive JVal where
  | b (x : Bool)
  | num (q : ℚ)
  | str (s : String)
  | null
  | undefined
  deriving DecidableEq, Repr

/-- A value in an upstream rate table: a number, or some non-numeric JSON
value (anything failing the `typeof rate === 'number'` test). -/
inductive JNum where
  | num (q : ℚ)
  | other
  deriving DecidableEq, Repr

/-- First-match lookup in an association list (JS object property access,
`Map.prototype.get`). -/
def alookup {α : Type} : List (String × α) → String → Option α
  | [], _ => none
  | (k, v) :: rest, key => if k = key then some v else alookup rest key

/-- `Map.prototype.set`: replace in place if the key exists, else append. -/
def aset {α : Type} : List (String × α) → String → α → List (String × α)
  | [], key, v => [(key, v)]
  | (k, w) :: rest, key, v =>
      if k = key then (key, v) :: rest else (k, w) :: aset rest key v

/-- `Map.prototype.delete`: remove the entry with the given key. -/
def adel {α : Type} : List (String × α) → String → List (String × α)
  | [], _ => []
  | (k, w) :: rest, key => if k = key then rest else (k, w) :: adel rest key

/-- The upstream payload shape used by `convert.js`: the fields `result`,
`conversion_rates` and `time_last_update_utc` of the provider's JSON.
`none` models an absent (or JS-falsy) field. -/
structure Payload where
  result : Option String
  conversion_rates : Option (List (String × JNum))
  time_last_update_utc : Option String
  deriving DecidableEq, Repr

/-- A cache slot `{ ts, data }` as stored by `writeToCache`. -/
structure CEntry where
  ts : ℤ
  data : Payload
  deriving DecidableEq, Repr

/-- The in-memory cache `Map`. -/
abbrev CacheMap : Type := List (String × CEntry)

/-- `getCacheKey` from `convert.js`. -/
def getCacheKey (fromCurrency : String) : String := "latest:" ++ fromCurrency

/-- `readFromCache` from `convert.js`: returns the stored payload, evicting
the entry and reporting absence when `now - entry.ts > CACHE_TTL`.  The
cache TTL and the current time are explicit parameters. -/
def readFromCache (ttl now : ℤ) (cache : CacheMap) (fromCurrency : String) :
    Option Payload × CacheMap :=
  let key := getCacheKey fromCurrency
  match alookup cache key with
  | none => (none, cache)
  | some entry =>
      if ttl < now - entry.ts then (none, adel cache key)
      else (some entry.data, cache)

/-- `writeToCache` from `convert.js`. -/
def writeToCache (now : ℤ) (cache : CacheMap) (fromCurrency : String)
    (data : Payload) : CacheMap :=
  aset cache (getCacheKey fromCurrency) ⟨now, data⟩

/-- The static table `FALLBACK_RATES` from `utils/fallbackRates.js`. -/
def FALLBACK_RATES : List (String × List (String × ℚ)) :=
  [ ("USD", [("EUR", 85/100), ("GBP", 73/100), ("JPY", 110), ("CAD", 125/100),
             ("AUD", 135/100), ("CHF", 92/100), ("CNY", 645/100), ("INR", 75),
             ("BRL", 52/10), ("PHP", 582/10), ("KRW", 1340), ("MXN", 172/10)]),
    ("EUR", [("USD", 118/100), ("GBP", 86/100), ("JPY", 129), ("CAD", 147/100),
             ("AUD", 159/100), ("CHF", 108/100), ("CNY", 759/100), ("INR", 88),
             ("BRL", 61/10), ("PHP", 635/10)]),
    ("PHP", [("USD", 17/1000), ("EUR", 16/1000), ("JPY", 19/10),
             ("GBP", 14/1000), ("AUD", 23/1000)]),
    ("JPY", [("USD", 91/10000), ("EUR", 77/10000), ("GBP", 67/10000),
             ("PHP", 53/100), ("INR", 68/100)]) ]

/-- The record returned by `getFallbackRate`. -/
structure FallbackRate where
  rate : ℚ
  lastUpdated : String
  defaulted : Bool
  deriving DecidableEq, Repr

/-- `getFallbackRate` from `utils/fallbackRates.js`; `nowIso` stands for
`new Date().toISOString()`.  All values of the static table are numeric
literals, so the `typeof === 'number'` test is presence in the row. -/
def getFallbackRate (fromCurrency toCurrency : String) (nowIso : String) :
    FallbackRate :=
  match alookup FALLBACK_RATES fromCurrency with
  | none => ⟨1, nowIso, true⟩
  | some row =>
      match alookup row toCurrency with
      | some q => ⟨q, nowIso, false⟩
      | none => ⟨1, nowIso, true⟩

/-- `ALLOWED_QUERY_PARAMS` from `convert.js`. -/
def ALLOWED_QUERY_PARAMS : List String := ["from", "to", "amount"]

/-- `ALLOWED_CURRENCIES` from `convert.js`. -/
def ALLOWED_CURRENCIES : List String :=
  ["USD","EUR","GBP","JPY","AUD","CAD","CHF","CNY","HKD","NZD","SEK","KRW",
   "SGD","NOK","MXN","INR","RUB","BRL","ZAR","TRY","DKK","PLN","THB","MYR",
   "IDR","HUF","CZK","ILS","PHP","CLP","AED","SAR","COP","ARS","VND","EGP",
   "NGN","KZT","PKR","BDT"]

/-- ASCII uppercasing of one character (JS `toUpperCase`, modelled on the
ASCII range; the inputs of interest are ASCII currency codes). -/
def jsUpperChar (c : Char) : Char :=
  if 'a' ≤ c && c ≤ 'z' then Char.ofNat (c.toNat - 32) else c

/-- JS `String.prototype.toUpperCase` on ASCII strings. -/
def jsToUpper (s : String) : String := ⟨s.data.map jsUpperChar⟩

/-- Whitespace stripped by JS `String.prototype.trim` (common ASCII
whitespace; exotic Unicode space is not modelled). -/
def jsWsChar (c : Char) : Bool :=
  c = ' ' || c = '\t' || c = '\n' || c = '\r' || c = '\x0b' || c = '\x0c'

/-- JS `String.prototype.trim`. -/
def jsTrim (s : String) : String :=
  ⟨((s.data.dropWhile jsWsChar).reverse.dropWhile jsWsChar).reverse⟩

/-- The regex `^[A-Z]{3}$` (`ISO_CURRENCY_REGEX`). -/
def isoCurrencyTest (s : String) : Bool :=
  s.length = 3 && s.toList.all (fun c => 'A' ≤ c && c ≤ 'Z')

/-- ASCII digit test (`\d` of the amount regex). -/
def isDig (c : Char) : Bool := '0' ≤ c && c ≤ '9'

/-- Consume a maximal run of digits, returning `(digits, rest)`. -/
def takeDigs : List Char → List Char × List Char
  | [] => ([], [])
  | c :: rest =>
      if isDig c then (c :: (takeDigs rest).1, (takeDigs rest).2)
      else ([], c :: rest)

/-- The optional `[+-]?` of the amount regex: the sign and the remaining
characters. -/
def stripSign (l : List Char) : Bool × List Char :=
  if l.headD ' ' = '+' then (false, l.tail)
  else if l.headD ' ' = '-' then (true, l.tail)
  else (false, l)

/-- The `\d+(?:\.\d+)?$` part of the amount regex on the sign-stripped
characters: one or more digits, optionally a decimal point followed by
one or more digits, and nothing after. -/
def splitBody (neg : Bool) (l1 : List Char) :
    Option (Bool × List Char × List Char) :=
  if (takeDigs l1).1.isEmpty then none
  else if (takeDigs l1).2.isEmpty then some (neg, (takeDigs l1).1, [])
  else if (takeDigs l1).2.headD ' ' = '.' then
    if (takeDigs ((takeDigs l1).2.tail)).1.isEmpty ||
       !(takeDigs ((takeDigs l1).2.tail)).2.isEmpty then none
    else some (neg, (takeDigs l1).1, (takeDigs ((takeDigs l1).2.tail)).1)
  else none

/-- The regex `^[+-]?\d+(?:\.\d+)?$` on the raw amount characters, returning
the sign, the integer digits and the fractional digits on a match. -/
def splitAmount (l : List Char) : Option (Bool × List Char × List Char) :=
  splitBody (stripSign l).1 (stripSign l).2

/-- Numeric value of a digit run. -/
def digitsVal (l : List Char) : ℕ :=
  l.foldl (fun n c => 10 * n + (c.toNat - '0'.toNat)) 0

/-- The exact value of a matched amount literal (`Number(rawAmt)` for a
string that passed the plain-decimal regex). -/
def amtVal (neg : Bool) (d d2 : List Char) : ℚ :=
  (if neg then (-1 : ℚ) else 1) *
    ((digitsVal d : ℚ) + (digitsVal d2 : ℚ) / 10 ^ d2.length)

/-- `MAX_AMOUNT` from `convert.js`. -/
def MAX_AMOUNT : ℚ := 10 ^ 12

/-- `MAX_DECIMALS` from `convert.js`. -/
def MAX_DECIMALS : ℕ := 8

/-- The result of `validateAndNormalizeQuery`: either
`{ ok: false, error }` or `{ ok: true, from, to, amount }`. -/
inductive VResult where
  | err (msg : String)
  | ok (fromC toC : String) (amount : Option ℚ)
  deriving DecidableEq, Repr

/-- Lines 73–96 of `convert.js`: the amount checks of the validator, run
when the `amount` parameter is present.  The trimmed raw string must be
nonempty, match the plain-decimal regex, and its value must be within
magnitude `MAX_AMOUNT`, non-negative, and carry at most `MAX_DECIMALS`
fractional digits (the checks run in this order). -/
def checkAmount (fromC toC : String) (rawAmount : String) : VResult :=
  let rawAmt := jsTrim rawAmount
  if rawAmt.length = 0 then
    .err "If provided, \"amount\" must not be empty."
  else
    match splitAmount rawAmt.toList with
    | none => .err "\"amount\" must be a plain decimal number without exponent."
    | some (neg, d, d2) =>
      -- the exact value of a plain decimal literal is always finite,
      -- so the `Number.isFinite`/`Number.isNaN` guard never fires here
      let num := amtVal neg d d2
      if MAX_AMOUNT < |num| then
        .err "\"amount\" is out of allowed range."
      else if num < 0 then
        .err "\"amount\" must be zero or a positive value."
      else if MAX_DECIMALS < d2.length then
        .err "\"amount\" may have at most 8 decimal places."
      else .ok fromC toC (some num)

/-- The first query key outside `ALLOWED_QUERY_PARAMS`, in object order
(the `for (const k of keys)` loop of the validator). -/
def firstBadKey : List String → Option String
  | [] => none
  | k :: rest => if k ∈ ALLOWED_QUERY_PARAMS then firstBadKey rest else some k

/-- `validateAndNormalizeQuery` from `convert.js`.  The query is the
association list of raw string parameters in object-key order. -/
def validateAndNormalizeQuery (query : List (String × String)) : VResult :=
  match firstBadKey (query.map Prod.fst) with
  | some k => .err ("Unexpected parameter " ++ "\x27" ++ k ++ "\x27.")
  | none =>
    let rawFrom := alookup query "from"
    let rawTo := alookup query "to"
    -- `!rawFrom || !rawTo`: absent or the empty string are falsy
    if rawFrom = none || rawFrom = some "" || rawTo = none || rawTo = some "" then
      .err "Missing required query parameters \"from\" and \"to\"."
    else
      let fromC := jsToUpper (rawFrom.getD "")
      let toC := jsToUpper (rawTo.getD "")
      if !(isoCurrencyTest fromC && isoCurrencyTest toC) then
        .err "Currency codes must be 3-letter ISO codes (A-Z)."
      else if !(decide (fromC ∈ ALLOWED_CURRENCIES) && decide (toC ∈ ALLOWED_CURRENCIES)) then
        .err "Currency not supported. Use a standard ISO 4217 currency code."
      else
        match alookup query "amount" with
        | none => .ok fromC toC none
        | some rawAmount => checkAmount fromC toC rawAmount

/-- The observable outcome of one upstream fetch attempt
(`fetchWithTimeout` plus `res.json()`):
* `httpOk p` — an OK response whose body parsed to payload `p`;
* `httpErr s` — a non-OK response with HTTP status `s`;
* `thrown name msg` — the attempt threw (`AbortError` for the timeout,
  other names such as `TypeError` for network errors, `SyntaxError` for a
  body that fails to parse). -/
inductive AttemptOutcome where
  | httpOk (p : Payload)
  | httpErr (status : ℕ)
  | thrown (name msg : String)

/-- A caught JS error: its `name` and `message`. -/
structure JsError where
  name : String
  msg : String
  deriving DecidableEq, Repr

/-- `lst` begins with `pat`. -/
def leadsWith : List Char → List Char → Bool
  | [], _ => true
  | _ :: _, [] => false
  | a :: as, b :: bs => a = b && leadsWith as bs

/-- `pat` occurs as a contiguous run somewhere in the list (JS
`/pat/.test(msg)` for a literal pattern). -/
def hasSub (pat : List Char) : List Char → Bool
  | [] => leadsWith pat []
  | c :: rest => leadsWith pat (c :: rest) || hasSub pat rest

/-- A match of `/status (5\d\d|429)/` anchored at the head of the list. -/
def statusPatAt : List Char → Bool
  | 's' :: 't' :: 'a' :: 't' :: 'u' :: 's' :: ' ' :: c1 :: c2 :: c3 :: _ =>
      (c1 = '5' && isDig c2 && isDig c3) || (c1 = '4' && c2 = '2' && c3 = '9')
  | _ => false

/-- `/status (5\d\d|429)/.test(msg)`. -/
def statusRegexTest : List Char → Bool
  | [] => false
  | c :: rest => statusPatAt (c :: rest) || statusRegexTest rest

/-- The catch-block retry classifier of `fetchRates`:
`isAbort || /status (5\d\d|429)/.test(msg) || /Unexpected upstream payload/.test(msg)`. -/
def errRetryable (e : JsError) : Bool :=
  e.name = "AbortError" || statusRegexTest e.msg.toList ||
    hasSub "Unexpected upstream payload".toList e.msg.toList

/-- The success-shape check of `fetchRates`:
`data?.result === 'success' && data?.conversion_rates` (negated in the
source as the throw condition). -/
def payloadShapeOk (p : Payload) : Bool :=
  p.result = some "success" && !(p.conversion_rates = none)

/-- `res.status >= 500 || res.status === 429` (the non-OK retryable
statuses). -/
def statusRetryable (status : ℕ) : Bool := 500 ≤ status || status = 429

/-- The observable trace of one `fetchRates` call: the successful payload
(if any), the `lastErr` that would be thrown on failure, the number of
attempts performed, and the backoff delays (ms) awaited, in order. -/
structure FetchTrace where
  result : Option Payload
  lastErr : Option JsError
  attempts : ℕ
  delays : List ℕ
  deriving Repr

/-- The `while (attempt <= RETRIES)` loop of `fetchRates`, by fuel
(`fuel = RETRIES + 1 - attempt` at every call).  Each iteration consumes
`outcomes attempt`; the branch structure mirrors the source:
* an OK response whose payload has `result == 'success'` and a
  `conversion_rates` field returns it; otherwise the iteration throws
  `Unexpected upstream payload`, which the catch block classifies
  retryable and delays `200 * 2 ^ attempt` before the next attempt;
* a non-OK status is retryable when `status >= 500 || status == 429`; a
  retryable status before the last attempt loops again directly — without
  throwing, hence without any backoff delay; otherwise the iteration
  throws `Upstream status <s>` into the catch block;
* a thrown error is retried (after the backoff delay) only when the
  classifier `errRetryable` accepts it and attempts remain. -/
def fetchGo (retries : ℕ) (outcomes : ℕ → AttemptOutcome) :
    ℕ → ℕ → Option JsError → FetchTrace
  | 0, _, lastErr => ⟨none, lastErr, 0, []⟩
  | fuel + 1, attempt, lastErr =>
    match outcomes attempt with
    | .httpOk p =>
        if payloadShapeOk p then
          ⟨some p, lastErr, 1, []⟩
        else
          let e : JsError := ⟨"Error", "Unexpected upstream payload"⟩
          if attempt = retries then ⟨none, some e, 1, []⟩
          else
            let t := fetchGo retries outcomes fuel (attempt + 1) (some e)
            ⟨t.result, t.lastErr, t.attempts + 1, 200 * 2 ^ attempt :: t.delays⟩
    | .httpErr status =>
        if !statusRetryable status || attempt = retries then
          let e : JsError := ⟨"Error", "Upstream status " ++ toString status⟩
          if !errRetryable e || attempt = retries then ⟨none, some e, 1, []⟩
          else
            let t := fetchGo retries outcomes fuel (attempt + 1) (some e)
            ⟨t.result, t.lastErr, t.attempts + 1, 200 * 2 ^ attempt :: t.delays⟩
        else
          let t := fetchGo retries outcomes fuel (attempt + 1) lastErr
          ⟨t.result, t.lastErr, t.attempts + 1, t.delays⟩
    | .thrown name msg =>
        let e : JsError := ⟨name, msg⟩
        if !errRetryable e || attempt = retries then ⟨none, some e, 1, []⟩
        else
          let t := fetchGo retries outcomes fuel (attempt + 1) (some e)
          ⟨t.result, t.lastErr, t.attempts + 1, 200 * 2 ^ attempt :: t.delays⟩

/-- `fetchRates` from `convert.js`: run the attempt loop from attempt 0.
`result = none` models the final `throw lastErr`. -/
def fetchRates (retries : ℕ) (outcomes : ℕ → AttemptOutcome) : FetchTrace :=
  fetchGo retries outcomes (retries + 1) 0 none

/-- An entry of the side-effect trace of one handler run. -/
inductive Event where
  | cacheRead (base : String)
  | cacheWrite (base : String)
  | fetch (base : String) (attempts : ℕ)
  | logWarn (tag : String) (fallbackDefaulted : Option Bool)
  deriving DecidableEq, Repr

/-- Handler configuration: the `EXCHANGE_RATE_API_KEY`, `CACHE_TTL` and
`RETRIES` values read from the environment at module load. -/
structure HandlerEnv where
  apiKey : Option String
  cacheTTL : ℤ
  retries : ℕ

/-- The request: HTTP method (absent models an undefined `req.method`)
and the parsed query object. -/
structure Req where
  method : Option String
  query : List (String × String)

/-- The observable outcome of a handler run: HTTP status, the object
passed to `res.json` (fields in literal order), the final cache and the
side-effect trace. -/
structure HandlerOut where
  status : ℕ
  body : List (String × JVal)
  cache : CacheMap
  events : List Event

/-- `Number((x).toFixed(6))` on the exact value: round to 6 fractional
digits picking the larger candidate on ties (ECMA `toFixed`). -/
def toFixed6 (q : ℚ) : ℚ := (⌊q * 10 ^ 6 + 1 / 2⌋ : ℚ) / 10 ^ 6

/-- `amount !== null ? Number((amount * rate).toFixed(6)) : null`. -/
def mkConverted (amount : Option ℚ) (rate : ℚ) : JVal :=
  match amount with
  | some a => .num (toFixed6 (a * rate))
  | none => .null

/-- Numeric lookup in an optional rate table:
`typeof rates?.[toCurrency] === 'number'` yielding the number. -/
def jnumLookup (rates : Option (List (String × JNum))) (key : String) : Option ℚ :=
  match rates with
  | none => none
  | some l =>
      match alookup l key with
      | some (.num q) => some q
      | _ => none

/-- The pair-not-available error text. -/
def pairUnavailableMsg (fromC toC : String) : String :=
  "Exchange rate from " ++ fromC ++ " to " ++ toC ++ " not available."

/-- The success body shared verbatim by every 200 return site of the
handler: `{ success, rate, convertedAmount, from, to, lastUpdated, source }`. -/
def successBody (rate : ℚ) (amount : Option ℚ) (fromC toC : String)
    (lastUpdated : JVal) (source : String) : List (String × JVal) :=
  [("success", .b true), ("rate", .num rate),
   ("convertedAmount", mkConverted amount rate), ("from", .str fromC),
   ("to", .str toC), ("lastUpdated", lastUpdated), ("source", .str source)]

/-- `undefined`-aware serialization of an optional string field. -/
def optStr : Option String → JVal
  | some s => .str s
  | none => .undefined

/-- Step 5 of the chain: the static-fallback 200 response
(`source: 'fallback'`, lines 279–294 of `convert.js`), logging the
`fallbackDefaulted` flag. -/
def staticFallbackOut (fb : FallbackRate) (amount : Option ℚ)
    (fromC toC : String) (cache : CacheMap) (ev : List Event) : HandlerOut :=
  ⟨200, successBody fb.rate amount fromC toC (.str fb.lastUpdated) "fallback",
   cache, ev ++ [.logWarn "upstream-failed-fallback" (some fb.defaulted)]⟩

/-- Lines 231–295 of `convert.js`: the upstream attempt, the cache write
on success, the pair-not-available return, and on failure the degraded
cache read followed by the static fallback. -/
def handlerFetchStage (env : HandlerEnv) (fromC toC : String)
    (amount : Option ℚ) (fb : FallbackRate) (cache1 : CacheMap) (t1 : ℤ)
    (outcomes : ℕ → AttemptOutcome) (ev0 : List Event) : HandlerOut :=
  let tr := fetchRates env.retries outcomes
  let ev1 := ev0 ++ [.fetch fromC tr.attempts]
  match tr.result with
  | some data =>
      let cache2 := writeToCache t1 cache1 fromC data
      let ev2 := ev1 ++ [.cacheWrite fromC]
      match jnumLookup data.conversion_rates toC with
      | some rate =>
          ⟨200, successBody rate amount fromC toC
                  (optStr data.time_last_update_utc) "upstream", cache2, ev2⟩
      | none =>
          ⟨400, [("success", .b false),
                 ("error", .str (pairUnavailableMsg fromC toC))], cache2,
           ev2 ++ [.logWarn "rate-missing" none]⟩
  | none =>
      let rc := readFromCache env.cacheTTL t1 cache1 fromC
      let ev2 := ev1 ++ [.cacheRead fromC]
      match rc.1 with
      | some cdata =>
          match jnumLookup cdata.conversion_rates toC with
          | some rate =>
              ⟨200, successBody rate amount fromC toC
                      (optStr cdata.time_last_update_utc) "cache-fallback",
               rc.2, ev2 ++ [.logWarn "upstream-failed-cache" none]⟩
          | none => staticFallbackOut fb amount fromC toC rc.2 ev2
      | none => staticFallbackOut fb amount fromC toC rc.2 ev2

/-- Lines 187–296 of `convert.js`: everything after the method guard. -/
def handlerCore (env : HandlerEnv) (req : Req) (cache0 : CacheMap)
    (t0 t1 : ℤ) (nowIso : String) (outcomes : ℕ → AttemptOutcome) :
    HandlerOut :=
  match validateAndNormalizeQuery req.query with
  | .err msg =>
      ⟨400, [("success", .b false), ("error", .str msg)], cache0,
       [.logWarn "validation-failed" none]⟩
  | .ok fromC toC amount =>
      let fb := getFallbackRate fromC toC nowIso
      match env.apiKey with
      | none =>
          ⟨200, successBody fb.rate amount fromC toC (.str fb.lastUpdated)
                  "fallback", cache0,
           [.logWarn "missing-api-key" (some fb.defaulted)]⟩
      | some _ =>
          let rc := readFromCache env.cacheTTL t0 cache0 fromC
          let ev1 : List Event := [.cacheRead fromC]
          match rc.1 with
          | some cdata =>
              match jnumLookup cdata.conversion_rates toC with
              | some rate =>
                  ⟨200, successBody rate amount fromC toC
                          (optStr cdata.time_last_update_utc) "cache",
                   rc.2, ev1⟩
              | none =>
                  handlerFetchStage env fromC toC amount fb rc.2 t1 outcomes ev1
          | none => handlerFetchStage env fromC toC amount fb rc.2 t1 outcomes ev1

/-- The default export of `api/convert.js`: the method guard followed by
`handlerCore`. -/
def handler (env : HandlerEnv) (req : Req) (cache0 : CacheMap) (t0 t1 : ℤ)
    (nowIso : String) (outcomes : ℕ → AttemptOutcome) : HandlerOut :=
  match req.method with
  | some m =>
      if jsToUpper m ≠ "GET" then
        ⟨405, [("success", .b false),
               ("error", .str "Method Not Allowed. Use GET.")], cache0, []⟩
      else handlerCore env req cache0 t0 t1 nowIso outcomes
  | none => handlerCore env req cache0 t0 t1 nowIso outcomes

/-- Field lookup in a serialized body. -/
def bodyGet (out : HandlerOut) (k : String) : Option JVal := alookup out.body k

/-- No cache reads, cache writes or upstream fetches in the trace. -/
def noBackendEvents (evs : List Event) : Bool :=
  evs.all fun e =>
    match e with
    | .cacheRead _ => false
    | .cacheWrite _ => false
    | .fetch _ _ => false
    | .logWarn _ _ => true

/-- The rate the first cache stage would serve: the numeric `to` entry of
the payload returned by a cache read, if any. -/
def cstageRate (c : Option Payload) (toC : String) : Option ℚ :=
  match c with
  | some d => jnumLookup d.conversion_rates toC
  | none => none

/-! ### Association-list and cache lemmas -/

theorem alookup_eq_none_of_not_mem {α : Type} (l : List (String × α))
    (k : String) (h : k ∉ l.map Prod.fst) : alookup l k = none := by
  induction l with
  | nil => rfl
  | cons p rest ih =>
      obtain ⟨k0, w⟩ := p
      simp only [List.map_cons, List.mem_cons, not_or] at h
      have hne : ¬ k0 = k := fun hk => h.1 hk.symm
      simp only [alookup, if_neg hne, ih h.2]

theorem alookup_aset_self {α : Type} (l : List (String × α)) (k : String)
    (v : α) : alookup (aset l k v) k = some v := by
  induction l with
  | nil => simp [aset, alookup]
  | cons p rest ih =>
      obtain ⟨k0, w⟩ := p
      by_cases h : k0 = k
      · subst h; simp [aset, alookup]
      · simp [aset, alookup, h, ih]

theorem alookup_adel_ne {α : Type} (l : List (String × α)) (k k' : String)
    (h : k ≠ k') : alookup (adel l k) k' = alookup l k' := by
  induction l with
  | nil => rfl
  | cons p rest ih =>
      obtain ⟨k0, w⟩ := p
      by_cases h0 : k0 = k
      · subst h0; simp [adel, alookup, h]
      · simp [adel, alookup, h0, ih]

theorem alookup_adel_self {α : Type} (l : List (String × α)) (k : String)
    (hnd : (l.map Prod.fst).Nodup) : alookup (adel l k) k = none := by
  induction l with
  | nil => rfl
  | cons p rest ih =>
      obtain ⟨k0, w⟩ := p
      simp only [List.map_cons, List.nodup_cons] at hnd
      by_cases h0 : k0 = k
      · subst h0
        simpa [adel] using alookup_eq_none_of_not_mem rest k0 hnd.1
      · simp [adel, alookup, h0, ih hnd.2]

/-- A cache read of an absent key changes nothing. -/
theorem readFromCache_absent (ttl now : ℤ) (cache : CacheMap) (base : String)
    (h : alookup cache (getCacheKey base) = none) :
    readFromCache ttl now cache base = (none, cache) := by
  simp [readFromCache, h]

/-- A cache read of an unexpired entry returns its payload and changes
nothing. -/
theorem readFromCache_fresh (ttl now : ℤ) (cache : CacheMap) (base : String)
    (e : CEntry) (h : alookup cache (getCacheKey base) = some e)
    (hfresh : now - e.ts ≤ ttl) :
    readFromCache ttl now cache base = (some e.data, cache) := by
  simp [readFromCache, h, not_lt.mpr hfresh]

/-- A cache read of an expired entry evicts it and reports absence.  This
one function implements both the normal read (line 214 of `convert.js`)
and the degraded read after an upstream failure (line 260). -/
theorem readFromCache_expired (ttl now : ℤ) (cache : CacheMap) (base : String)
    (e : CEntry) (h : alookup cache (getCacheKey base) = some e)
    (hexp : ttl < now - e.ts) :
    readFromCache ttl now cache base = (none, adel cache (getCacheKey base)) := by
  simp [readFromCache, h, hexp]

/-- A cache read never disturbs an entry that is unexpired at read time. -/
theorem readFromCache_preserves (ttl now : ℤ) (cache : CacheMap)
    (base key : String) (e : CEntry) (h : alookup cache key = some e)
    (hfresh : ¬ ttl < now - e.ts) :
    alookup (readFromCache ttl now cache base).2 key = some e := by
  rcases h0 : alookup cache (getCacheKey base) with _ | e0
  · simp [readFromCache, h0, h]
  · by_cases hexp : ttl < now - e0.ts
    · simp only [readFromCache, h0, if_pos hexp]
      by_cases hk : key = getCacheKey base
      · subst hk; rw [h] at h0; cases h0; exact absurd hexp hfresh
      · rw [alookup_adel_ne cache (getCacheKey base) key (fun hne => hk hne.symm)]
        exact h
    · simp [readFromCache, h0, hexp, h]

/-! ### Handler unfolding helpers -/

/-- For a GET (or method-less) request the method guard is a no-op. -/
theorem handler_eq_core (env : HandlerEnv) (req : Req) (cache0 : CacheMap)
    (t0 t1 : ℤ) (nowIso : String) (outcomes : ℕ → AttemptOutcome)
    (hm : req.method = none ∨ ∃ m, req.method = some m ∧ jsToUpper m = "GET") :
    handler env req cache0 t0 t1 nowIso outcomes =
      handlerCore env req cache0 t0 t1 nowIso outcomes := by
  rcases hm with h | ⟨m, h, hup⟩
  · simp [handler, h]
  · simp [handler, h, hup]

/-- A failed validation short-circuits the handler core with the 400 error
response and no backend access. -/
theorem handlerCore_validation_err (env : HandlerEnv) (req : Req)
    (cache0 : CacheMap) (t0 t1 : ℤ) (nowIso : String)
    (outcomes : ℕ → AttemptOutcome) (msg : String)
    (hv : validateAndNormalizeQuery req.query = .err msg) :
    handlerCore env req cache0 t0 t1 nowIso outcomes =
      ⟨400, [("success", .b false), ("error", .str msg)], cache0,
       [.logWarn "validation-failed" none]⟩ := by
  simp [handlerCore, hv]

/-- Whatever the handler does, it never touches the cache or the upstream
fetcher on a request whose validation fails. -/
theorem handler_validation_err_no_backend (env : HandlerEnv) (req : Req)
    (cache0 : CacheMap) (t0 t1 : ℤ) (nowIso : String)
    (outcomes : ℕ → AttemptOutcome) (msg : String)
    (hv : validateAndNormalizeQuery req.query = .err msg) :
    (handler env req cache0 t0 t1 nowIso outcomes).cache = cache0 ∧
      noBackendEvents (handler env req cache0 t0 t1 nowIso outcomes).events = true := by
  rcases hmm : req.method with _ | m
  · rw [handler_eq_core env req cache0 t0 t1 nowIso outcomes (Or.inl hmm),
        handlerCore_validation_err env req cache0 t0 t1 nowIso outcomes msg hv]
    exact ⟨rfl, rfl⟩
  · by_cases hup : jsToUpper m = "GET"
    · rw [handler_eq_core env req cache0 t0 t1 nowIso outcomes
            (Or.inr ⟨m, hmm, hup⟩),
          handlerCore_validation_err env req cache0 t0 t1 nowIso outcomes msg hv]
      exact ⟨rfl, rfl⟩
    · simp [handler, hmm, hup, noBackendEvents]

/-! ### Shared concrete inputs for witnesses and counterexamples -/

/-- A well-formed upstream payload carrying a EUR rate. -/
def payloadEUR : Payload := ⟨some "success", some [("EUR", .num 9)], some "t1"⟩

/-- A well-formed upstream payload with a GBP rate but no EUR rate. -/
def payloadGBP : Payload := ⟨some "success", some [("GBP", .num 2)], some "t2"⟩

/-- A well-formed upstream payload giving the base USD the rate 2. -/
def payloadUSD2 : Payload := ⟨some "success", some [("USD", .num 2)], some "t3"⟩

/-- A cache holding one USD entry stored at time 0. -/
def cacheUSD0 : CacheMap := [("latest:USD", ⟨0, payloadEUR⟩)]

/-! ### C3 -/

/-- C3: with `RETRIES = 1`, a first attempt that fails with a network
error (`err.name = 'TypeError'`, `err.message = 'fetch failed'`) is not
retried: the loop performs exactly one attempt and propagates the error,
while a timeout (`AbortError`) in the same position is retried.  The
claim (and the source's own comments, lines 27 and 165 of `convert.js`)
says network errors are retryable; the classifier at line 168 does not
match them. -/
theorem c3_network_error_not_retried :
    (fetchRates 1 (fun _ => .thrown "TypeError" "fetch failed")).attempts = 1 ∧
    (fetchRates 1 (fun _ => .thrown "TypeError" "fetch failed")).result = none ∧
    (fetchRates 1 (fun _ => .thrown "TypeError" "fetch failed")).lastErr =
      some ⟨"TypeError", "fetch failed"⟩ ∧
    (fetchRates 1 (fun _ => .thrown "AbortError" "This operation was aborted")).attempts = 2 := by
  decide

/-! ### C2 -/

/-- C2 counterexample: a USD cache entry stored at time 0 with TTL 300000,
read back at times 400000/400100 (so older than TTL at the degraded read)
around a failing upstream fetch, is not served as `cache-fallback`: the
TTL check fires, the entry is evicted, and the static fallback answers —
refuting the claim that the degraded read bypasses the TTL expiry check. -/
theorem c2_degraded_read_enforces_ttl_cex :
    (300000 : ℤ) < 400100 - 0 ∧
    alookup cacheUSD0 (getCacheKey "USD") = some ⟨0, payloadEUR⟩ ∧
    jnumLookup payloadEUR.conversion_rates "EUR" = some 9 ∧
    bodyGet (handler ⟨some "key", 300000, 1⟩
        ⟨some "GET", [("from","USD"),("to","EUR")]⟩ cacheUSD0 400000 400100
        "now" (fun _ => .thrown "TypeError" "fetch failed")) "source" =
      some (.str "fallback") ∧
    (handler ⟨some "key", 300000, 1⟩
        ⟨some "GET", [("from","USD"),("to","EUR")]⟩ cacheUSD0 400000 400100
        "now" (fun _ => .thrown "TypeError" "fetch failed")).cache = [] := by
  decide

/-! ### C4 -/

/-- C4 counterexample: a validated `USD → USD` request with an API key
configured takes the ordinary pipeline — the cache is read and the
upstream fetcher is called — and returns whatever rate the upstream table
holds for `USD` (here 2, not 1), refuting the claimed same-currency fast
path that yields rate 1 without consulting cache or upstream. -/
theorem c4_same_currency_no_fast_path_cex :
    validateAndNormalizeQuery [("from","USD"),("to","USD")] =
      .ok "USD" "USD" none ∧
    bodyGet (handler ⟨some "key", 300000, 1⟩
        ⟨some "GET", [("from","USD"),("to","USD")]⟩ [] 0 10 "now"
        (fun _ => .httpOk payloadUSD2)) "rate" = some (.num 2) ∧
    Event.cacheRead "USD" ∈ (handler ⟨some "key", 300000, 1⟩
        ⟨some "GET", [("from","USD"),("to","USD")]⟩ [] 0 10 "now"
        (fun _ => .httpOk payloadUSD2)).events ∧
    Event.fetch "USD" 1 ∈ (handler ⟨some "key", 300000, 1⟩
        ⟨some "GET", [("from","USD"),("to","USD")]⟩ [] 0 10 "now"
        (fun _ => .httpOk payloadUSD2)).events := by
  decide

/-! ### C5 -/

/-- C5 counterexample: with `RETRIES = 1`, a first attempt failing with
HTTP 500 followed by a successful attempt is retried (2 attempts, the
second succeeds), but no backoff delay is awaited before the retried
attempt — the retryable-status path loops without throwing and skips the
`200 * 2^attempt` delay, refuting the claim that the delay is applied for
every retryable failure class including HTTP 429/5xx. -/
theorem c5_http_retry_no_backoff_cex :
    (fetchRates 1 (fun n => if n = 0 then .httpErr 500 else .httpOk payloadEUR)).attempts = 2 ∧
    (fetchRates 1 (fun n => if n = 0 then .httpErr 500 else .httpOk payloadEUR)).result =
      some payloadEUR ∧
    (fetchRates 1 (fun n => if n = 0 then .httpErr 500 else .httpOk payloadEUR)).delays = [] := by
  decide

/-! ### C10 -/

/-- C10 counterexample: the query `{ x: "1" }` has `from` absent, yet
validation fails with the unexpected-parameter message — not with the
single missing-parameters message the claim requires for every query
lacking `from`/`to` (the unknown-parameter check runs first). -/
theorem c10_missing_from_to_cex :
    alookup [("x","1")] "from" = none ∧
    validateAndNormalizeQuery [("x","1")] =
      .err "Unexpected parameter \x27x\x27." ∧
    VResult.err "Unexpected parameter \x27x\x27." ≠
      .err "Missing required query parameters \"from\" and \"to\"." := by
  decide

/-- C5 (amended): the exponential backoff `200 * 2^attempt` is awaited
before a retried attempt only when the failure reached the catch block as
a thrown retryable error — a timeout/abort, a malformed payload, or an
error message matching `status 5xx/429` — while a retry triggered by a
retryable non-OK HTTP status (429 or ≥ 500) proceeds immediately with no
delay, and the final attempt never adds a delay. -/
theorem c5_backoff_only_for_thrown_retryable :
    (∀ (retries : ℕ) (outcomes : ℕ → AttemptOutcome) (fuel : ℕ)
       (lastErr : Option JsError),
       (fetchGo retries outcomes (fuel + 1) retries lastErr).delays = []) ∧
    (∀ (retries : ℕ) (outcomes : ℕ → AttemptOutcome) (fuel attempt : ℕ)
       (lastErr : Option JsError) (name msg : String),
       attempt < retries → outcomes attempt = .thrown name msg →
       errRetryable ⟨name, msg⟩ = true →
       (fetchGo retries outcomes (fuel + 1) attempt lastErr).delays =
         200 * 2 ^ attempt ::
           (fetchGo retries outcomes fuel (attempt + 1) (some ⟨name, msg⟩)).delays) ∧
    (∀ (retries : ℕ) (outcomes : ℕ → AttemptOutcome) (fuel attempt : ℕ)
       (lastErr : Option JsError) (p : Payload),
       attempt < retries → outcomes attempt = .httpOk p →
       payloadShapeOk p = false →
       (fetchGo retries outcomes (fuel + 1) attempt lastErr).delays =
         200 * 2 ^ attempt ::
           (fetchGo retries outcomes fuel (attempt + 1)
             (some ⟨"Error", "Unexpected upstream payload"⟩)).delays) ∧
    (∀ (retries : ℕ) (outcomes : ℕ → AttemptOutcome) (fuel attempt : ℕ)
       (lastErr : Option JsError) (status : ℕ),
       attempt < retries → outcomes attempt = .httpErr status →
       statusRetryable status = true →
       (fetchGo retries outcomes (fuel + 1) attempt lastErr).attempts =
         (fetchGo retries outcomes fuel (attempt + 1) lastErr).attempts + 1 ∧
       (fetchGo retries outcomes (fuel + 1) attempt lastErr).delays =
         (fetchGo retries outcomes fuel (attempt + 1) lastErr).delays) := by
  refine ⟨?_, ?_, ?_, ?_⟩
  · intro retries outcomes fuel lastErr
    cases h : outcomes retries with
    | httpOk p =>
        simp only [fetchGo, h]
        split
        · rfl
        · simp
    | httpErr status => simp [fetchGo, h]
    | thrown name msg => simp [fetchGo, h]
  · intro retries outcomes fuel attempt lastErr name msg hlt ho he
    simp [fetchGo, ho, he, Nat.ne_of_lt hlt]
  · intro retries outcomes fuel attempt lastErr p hlt ho hbad
    simp [fetchGo, ho, hbad, Nat.ne_of_lt hlt]
  · intro retries outcomes fuel attempt lastErr status hlt ho hr
    simp [fetchGo, ho, hr, Nat.ne_of_lt hlt]

/-- Witness for the amended C5: at `RETRIES = 2`, a timeout on the first
attempt is retried after a 200 ms delay, while an HTTP 500 on the first
attempt is retried with no delay; and a run starting at the final attempt
index records no delay. -/
theorem c5_backoff_only_for_thrown_retryable_witness :
    (fetchGo 2 (fun _ => .thrown "AbortError" "aborted") 1 2 none).delays = [] ∧
    (fetchGo 2 (fun _ => .thrown "AbortError" "aborted") 3 0 none).delays =
      200 * 2 ^ 0 ::
        (fetchGo 2 (fun _ => .thrown "AbortError" "aborted") 2 1
          (some ⟨"AbortError", "aborted"⟩)).delays ∧
    (fetchGo 2 (fun _ => .httpOk ⟨none, none, none⟩) 3 0 none).delays =
      200 * 2 ^ 0 ::
        (fetchGo 2 (fun _ => .httpOk ⟨none, none, none⟩) 2 1
          (some ⟨"Error", "Unexpected upstream payload"⟩)).delays ∧
    (fetchGo 2 (fun _ => .httpErr 500) 3 0 none).delays =
      (fetchGo 2 (fun _ => .httpErr 500) 2 1 none).delays := by
  refine ⟨?_, ?_, ?_, ?_⟩
  · exact c5_backoff_only_for_thrown_retryable.1 2 (fun _ => .thrown "AbortError" "aborted") 0 none
  · exact c5_backoff_only_for_thrown_retryable.2.1 2 (fun _ => .thrown "AbortError" "aborted")
      2 0 none "AbortError" "aborted" (by decide) rfl (by decide)
  · exact c5_backoff_only_for_thrown_retryable.2.2.1 2 (fun _ => .httpOk ⟨none, none, none⟩)
      2 0 none ⟨none, none, none⟩ (by decide) rfl (by decide)
  · exact (c5_backoff_only_for_thrown_retryable.2.2.2 2 (fun _ => .httpErr 500)
      2 0 none 500 (by decide) rfl (by decide)).2

/-- No base row of the static fallback table contains its own code, so a
same-currency lookup always takes the neutral default. -/
theorem getFallbackRate_self (x nowIso : String) :
    getFallbackRate x x nowIso = ⟨1, nowIso, true⟩ := by
  by_cases h1 : ("USD" : String) = x
  · subst h1; rfl
  · by_cases h2 : ("EUR" : String) = x
    · subst h2; rfl
    · by_cases h3 : ("PHP" : String) = x
      · subst h3; rfl
      · by_cases h4 : ("JPY" : String) = x
        · subst h4; rfl
        · simp [getFallbackRate, FALLBACK_RATES, alookup, h1, h2, h3, h4]

/-- With no API key configured, the handler core answers directly from
the static fallback table. -/
theorem handlerCore_noApiKey (env : HandlerEnv) (req : Req)
    (cache0 : CacheMap) (t0 t1 : ℤ) (nowIso : String)
    (outcomes : ℕ → AttemptOutcome) (fromC toC : String) (amount : Option ℚ)
    (hv : validateAndNormalizeQuery req.query = .ok fromC toC amount)
    (henv : env.apiKey = none) :
    handlerCore env req cache0 t0 t1 nowIso outcomes =
      ⟨200, successBody (getFallbackRate fromC toC nowIso).rate amount fromC
          toC (.str (getFallbackRate fromC toC nowIso).lastUpdated) "fallback",
        cache0,
       [.logWarn "missing-api-key" (some (getFallbackRate fromC toC nowIso).defaulted)]⟩ := by
  simp [handlerCore, hv, henv]

/-- C4 (amended): there is no same-currency fast path — an `X → X`
request follows the normal pipeline (see the counterexample for the
cache/upstream consultation) — but on the static-fallback path the rate
is exactly 1, because no row of the fallback table contains its own code
and the defaulted neutral rate 1.0 applies; `convertedAmount` is then the
amount rounded to 6 decimal places. -/
theorem c4_same_currency_fallback_rate_one :
    (∀ (x nowIso : String), getFallbackRate x x nowIso = ⟨1, nowIso, true⟩) ∧
    (∀ (env : HandlerEnv) (req : Req) (cache0 : CacheMap) (t0 t1 : ℤ)
       (nowIso : String) (outcomes : ℕ → AttemptOutcome) (fromC : String)
       (amount : Option ℚ),
       (req.method = none ∨ ∃ m, req.method = some m ∧ jsToUpper m = "GET") →
       validateAndNormalizeQuery req.query = .ok fromC fromC amount →
       env.apiKey = none →
       bodyGet (handler env req cache0 t0 t1 nowIso outcomes) "rate" =
         some (.num 1) ∧
       bodyGet (handler env req cache0 t0 t1 nowIso outcomes) "convertedAmount" =
         some (mkConverted amount 1) ∧
       bodyGet (handler env req cache0 t0 t1 nowIso outcomes) "source" =
         some (.str "fallback") ∧
       noBackendEvents (handler env req cache0 t0 t1 nowIso outcomes).events = true) := by
  refine ⟨getFallbackRate_self, ?_⟩
  intro env req cache0 t0 t1 nowIso outcomes fromC amount hm hv henv
  rw [handler_eq_core env req cache0 t0 t1 nowIso outcomes hm,
      handlerCore_noApiKey env req cache0 t0 t1 nowIso outcomes fromC fromC
        amount hv henv, getFallbackRate_self fromC nowIso]
  exact ⟨rfl, rfl, rfl, rfl⟩

/-- Witness for the amended C4: a `USD → USD` request with no API key
yields rate 1 from the fallback table without touching cache or
upstream. -/
theorem c4_same_currency_fallback_rate_one_witness :
    bodyGet (handler ⟨none, 300000, 1⟩
        ⟨some "GET", [("from","USD"),("to","USD")]⟩ [] 0 10 "now"
        (fun _ => .httpOk payloadUSD2)) "rate" = some (.num 1) ∧
    bodyGet (handler ⟨none, 300000, 1⟩
        ⟨some "GET", [("from","USD"),("to","USD")]⟩ [] 0 10 "now"
        (fun _ => .httpOk payloadUSD2)) "convertedAmount" =
      some (mkConverted none 1) ∧
    bodyGet (handler ⟨none, 300000, 1⟩
        ⟨some "GET", [("from","USD"),("to","USD")]⟩ [] 0 10 "now"
        (fun _ => .httpOk payloadUSD2)) "source" = some (.str "fallback") ∧
    noBackendEvents (handler ⟨none, 300000, 1⟩
        ⟨some "GET", [("from","USD"),("to","USD")]⟩ [] 0 10 "now"
        (fun _ => .httpOk payloadUSD2)).events = true :=
  c4_same_currency_fallback_rate_one.2 ⟨none, 300000, 1⟩
    ⟨some "GET", [("from","USD"),("to","USD")]⟩ [] 0 10 "now"
    (fun _ => .httpOk payloadUSD2) "USD" none
    (Or.inr ⟨"GET", rfl, by decide⟩) (by decide) rfl

/-- Whatever the upstream stage does — success, pair missing, failed
fetch with or without a usable degraded cache — it answers either with a
200 success carrying a numeric rate or with the pair-not-available 400. -/
theorem fetchStage_succeeds_or_pair (env : HandlerEnv) (fromC toC : String)
    (amount : Option ℚ) (fb : FallbackRate) (cache1 : CacheMap) (t1 : ℤ)
    (outcomes : ℕ → AttemptOutcome) (ev0 : List Event) :
    ((handlerFetchStage env fromC toC amount fb cache1 t1 outcomes ev0).status = 200 ∧
     bodyGet (handlerFetchStage env fromC toC amount fb cache1 t1 outcomes ev0)
       "success" = some (.b true) ∧
     ∃ q, bodyGet (handlerFetchStage env fromC toC amount fb cache1 t1 outcomes ev0)
       "rate" = some (.num q)) ∨
    ((handlerFetchStage env fromC toC amount fb cache1 t1 outcomes ev0).status = 400 ∧
     bodyGet (handlerFetchStage env fromC toC amount fb cache1 t1 outcomes ev0)
       "success" = some (.b false) ∧
     bodyGet (handlerFetchStage env fromC toC amount fb cache1 t1 outcomes ev0)
       "error" = some (.str (pairUnavailableMsg fromC toC))) := by
  simp only [handlerFetchStage, staticFallbackOut]
  split
  · split
    · left; exact ⟨rfl, rfl, ⟨_, rfl⟩⟩
    · right; exact ⟨rfl, rfl, rfl⟩
  · split
    · split
      · left; exact ⟨rfl, rfl, ⟨_, rfl⟩⟩
      · left; exact ⟨rfl, rfl, ⟨_, rfl⟩⟩
    · left; exact ⟨rfl, rfl, ⟨_, rfl⟩⟩

/-- C1: for every GET request whose query passes validation, the handler
returns a 200 success whose `rate` field is a number — every upstream
failure mode and the missing-credential case are absorbed by the
cache-fallback/static-fallback chain — except only the pair-not-available
case, which returns the 400 `Exchange rate from <FROM> to <TO> not
available.` failure. -/
theorem c1_validated_requests_succeed_or_pair_unavailable
    (env : HandlerEnv) (req : Req) (cache0 : CacheMap) (t0 t1 : ℤ)
    (nowIso : String) (outcomes : ℕ → AttemptOutcome) (fromC toC : String)
    (amount : Option ℚ)
    (hm : req.method = none ∨ ∃ m, req.method = some m ∧ jsToUpper m = "GET")
    (hv : validateAndNormalizeQuery req.query = .ok fromC toC amount) :
    ((handler env req cache0 t0 t1 nowIso outcomes).status = 200 ∧
     bodyGet (handler env req cache0 t0 t1 nowIso outcomes) "success" =
       some (.b true) ∧
     ∃ q, bodyGet (handler env req cache0 t0 t1 nowIso outcomes) "rate" =
       some (.num q)) ∨
    ((handler env req cache0 t0 t1 nowIso outcomes).status = 400 ∧
     bodyGet (handler env req cache0 t0 t1 nowIso outcomes) "success" =
       some (.b false) ∧
     bodyGet (handler env req cache0 t0 t1 nowIso outcomes) "error" =
       some (.str (pairUnavailableMsg fromC toC))) := by
  rw [handler_eq_core env req cache0 t0 t1 nowIso outcomes hm]
  simp only [handlerCore, hv]
  split
  · left; exact ⟨rfl, rfl, ⟨_, rfl⟩⟩
  · split
    · split
      · left; exact ⟨rfl, rfl, ⟨_, rfl⟩⟩
      · exact fetchStage_succeeds_or_pair env fromC toC amount _ _ t1 outcomes _
    · exact fetchStage_succeeds_or_pair env fromC toC amount _ _ t1 outcomes _

/-- Witness for C1 at a concrete validated request: no API key, empty
cache, so the static fallback answers with a numeric rate. -/
theorem c1_validated_requests_succeed_or_pair_unavailable_witness :
    ((handler ⟨none, 300000, 1⟩ ⟨some "GET", [("from","USD"),("to","EUR")]⟩
        [] 0 10 "now" (fun _ => .httpOk payloadEUR)).status = 200 ∧
     bodyGet (handler ⟨none, 300000, 1⟩
        ⟨some "GET", [("from","USD"),("to","EUR")]⟩ [] 0 10 "now"
        (fun _ => .httpOk payloadEUR)) "success" = some (.b true) ∧
     ∃ q, bodyGet (handler ⟨none, 300000, 1⟩
        ⟨some "GET", [("from","USD"),("to","EUR")]⟩ [] 0 10 "now"
        (fun _ => .httpOk payloadEUR)) "rate" = some (.num q)) ∨
    ((handler ⟨none, 300000, 1⟩ ⟨some "GET", [("from","USD"),("to","EUR")]⟩
        [] 0 10 "now" (fun _ => .httpOk payloadEUR)).status = 400 ∧
     bodyGet (handler ⟨none, 300000, 1⟩
        ⟨some "GET", [("from","USD"),("to","EUR")]⟩ [] 0 10 "now"
        (fun _ => .httpOk payloadEUR)) "success" = some (.b false) ∧
     bodyGet (handler ⟨none, 300000, 1⟩
        ⟨some "GET", [("from","USD"),("to","EUR")]⟩ [] 0 10 "now"
        (fun _ => .httpOk payloadEUR)) "error" =
       some (.str (pairUnavailableMsg "USD" "EUR"))) :=
  c1_validated_requests_succeed_or_pair_unavailable ⟨none, 300000, 1⟩
    ⟨some "GET", [("from","USD"),("to","EUR")]⟩ [] 0 10 "now"
    (fun _ => .httpOk payloadEUR) "USD" "EUR" none
    (Or.inr ⟨"GET", rfl, by decide⟩) (by decide)

/-! ### C6 -/

/-- C6: when validation passed, the first cache stage missed and the
upstream fetch succeeds with a table holding no numeric rate for the
target, the handler writes the fetched table to the cache (the entry is
present in the final cache with timestamp `t1`) and then returns the
pair-not-available 400 terminally: the event trace shows the cache write
and no further cache read, and the body is exactly the failure object. -/
theorem c6_pair_unavailable_after_cache_write (env : HandlerEnv) (req : Req)
    (cache0 : CacheMap) (t0 t1 : ℤ) (nowIso : String)
    (outcomes : ℕ → AttemptOutcome) (fromC toC : String) (amount : Option ℚ)
    (k : String) (p : Payload)
    (hm : req.method = none ∨ ∃ m, req.method = some m ∧ jsToUpper m = "GET")
    (hv : validateAndNormalizeQuery req.query = .ok fromC toC amount)
    (hk : env.apiKey = some k)
    (hmiss : cstageRate (readFromCache env.cacheTTL t0 cache0 fromC).1 toC = none)
    (hfetch : (fetchRates env.retries outcomes).result = some p)
    (hpair : jnumLookup p.conversion_rates toC = none) :
    (handler env req cache0 t0 t1 nowIso outcomes).status = 400 ∧
    (handler env req cache0 t0 t1 nowIso outcomes).body =
      [("success", .b false), ("error", .str (pairUnavailableMsg fromC toC))] ∧
    alookup (handler env req cache0 t0 t1 nowIso outcomes).cache
      (getCacheKey fromC) = some ⟨t1, p⟩ ∧
    (handler env req cache0 t0 t1 nowIso outcomes).events =
      [.cacheRead fromC,
       .fetch fromC (fetchRates env.retries outcomes).attempts,
       .cacheWrite fromC, .logWarn "rate-missing" none] := by
  rw [handler_eq_core env req cache0 t0 t1 nowIso outcomes hm]
  simp only [handlerCore, hv, hk]
  rcases heq : (readFromCache env.cacheTTL t0 cache0 fromC).1 with _ | cdata
  · simp only [heq, handlerFetchStage, hfetch, hpair]
    simp [writeToCache, alookup_aset_self]
  · rw [heq] at hmiss
    simp only [cstageRate] at hmiss
    simp only [heq, hmiss, handlerFetchStage, hfetch, hpair]
    simp [writeToCache, alookup_aset_self]

/-- Witness for C6: `USD → EUR` against an upstream table holding only a
GBP rate; the table is cached and the pair-not-available 400 returned. -/
theorem c6_pair_unavailable_after_cache_write_witness :
    (handler ⟨some "key", 300000, 1⟩
        ⟨some "GET", [("from","USD"),("to","EUR")]⟩ [] 0 10 "now"
        (fun _ => .httpOk payloadGBP)).status = 400 ∧
    (handler ⟨some "key", 300000, 1⟩
        ⟨some "GET", [("from","USD"),("to","EUR")]⟩ [] 0 10 "now"
        (fun _ => .httpOk payloadGBP)).body =
      [("success", .b false), ("error", .str (pairUnavailableMsg "USD" "EUR"))] ∧
    alookup (handler ⟨some "key", 300000, 1⟩
        ⟨some "GET", [("from","USD"),("to","EUR")]⟩ [] 0 10 "now"
        (fun _ => .httpOk payloadGBP)).cache (getCacheKey "USD") =
      some ⟨10, payloadGBP⟩ ∧
    (handler ⟨some "key", 300000, 1⟩
        ⟨some "GET", [("from","USD"),("to","EUR")]⟩ [] 0 10 "now"
        (fun _ => .httpOk payloadGBP)).events =
      [.cacheRead "USD",
       .fetch "USD" (fetchRates 1 (fun _ => .httpOk payloadGBP)).attempts,
       .cacheWrite "USD", .logWarn "rate-missing" none] :=
  c6_pair_unavailable_after_cache_write ⟨some "key", 300000, 1⟩
    ⟨some "GET", [("from","USD"),("to","EUR")]⟩ [] 0 10 "now"
    (fun _ => .httpOk payloadGBP) "USD" "EUR" none "key" payloadGBP
    (Or.inr ⟨"GET", rfl, by decide⟩) (by decide) rfl (by decide) (by decide)
    (by decide)

/-! ### C7 -/

/-- When the upstream fetch fails, the fetch stage performs no cache
write. -/
theorem fetchStage_no_write_on_fail (env : HandlerEnv) (fromC toC : String)
    (amount : Option ℚ) (fb : FallbackRate) (cache1 : CacheMap) (t1 : ℤ)
    (outcomes : ℕ → AttemptOutcome) (ev0 : List Event) (b : String)
    (hfail : (fetchRates env.retries outcomes).result = none)
    (hev0 : Event.cacheWrite b ∉ ev0) :
    Event.cacheWrite b ∉
      (handlerFetchStage env fromC toC amount fb cache1 t1 outcomes ev0).events := by
  simp only [handlerFetchStage, hfail]
  split
  · split
    · simp [hev0]
    · simp [staticFallbackOut, hev0]
  · simp [staticFallbackOut, hev0]

/-- When the upstream fetch fails, the fetch stage leaves every entry that
is unexpired at the degraded read in place. -/
theorem fetchStage_cache_preserved (env : HandlerEnv) (fromC toC : String)
    (amount : Option ℚ) (fb : FallbackRate) (cache1 : CacheMap) (t1 : ℤ)
    (outcomes : ℕ → AttemptOutcome) (ev0 : List Event) (key : String)
    (e : CEntry) (hfail : (fetchRates env.retries outcomes).result = none)
    (h : alookup cache1 key = some e)
    (hfresh : ¬ env.cacheTTL < t1 - e.ts) :
    alookup
      (handlerFetchStage env fromC toC amount fb cache1 t1 outcomes ev0).cache
      key = some e := by
  simp only [handlerFetchStage, hfail]
  split
  · split
    · exact readFromCache_preserves _ _ _ _ _ _ h hfresh
    · simp only [staticFallbackOut]
      exact readFromCache_preserves _ _ _ _ _ _ h hfresh
  · simp only [staticFallbackOut]
    exact readFromCache_preserves _ _ _ _ _ _ h hfresh

/-- When the upstream fetch fails, the handler core performs no cache
write. -/
theorem handlerCore_no_write_on_fail (env : HandlerEnv) (req : Req)
    (cache0 : CacheMap) (t0 t1 : ℤ) (nowIso : String)
    (outcomes : ℕ → AttemptOutcome) (b : String)
    (hfail : (fetchRates env.retries outcomes).result = none) :
    Event.cacheWrite b ∉
      (handlerCore env req cache0 t0 t1 nowIso outcomes).events := by
  simp only [handlerCore]
  split
  · simp
  · split
    · simp
    · split
      · split
        · simp
        · exact fetchStage_no_write_on_fail _ _ _ _ _ _ _ _ _ _ hfail (by simp)
      · exact fetchStage_no_write_on_fail _ _ _ _ _ _ _ _ _ _ hfail (by simp)

/-- When the upstream fetch fails, the handler core preserves every entry
unexpired at both reads. -/
theorem handlerCore_cache_preserved (env : HandlerEnv) (req : Req)
    (cache0 : CacheMap) (t0 t1 : ℤ) (nowIso : String)
    (outcomes : ℕ → AttemptOutcome) (key : String) (e : CEntry)
    (hfail : (fetchRates env.retries outcomes).result = none)
    (h : alookup cache0 key = some e)
    (hf0 : ¬ env.cacheTTL < t0 - e.ts) (hf1 : ¬ env.cacheTTL < t1 - e.ts) :
    alookup (handlerCore env req cache0 t0 t1 nowIso outcomes).cache key =
      some e := by
  simp only [handlerCore]
  split
  · exact h
  · split
    · exact h
    · split
      · split
        · exact readFromCache_preserves _ _ _ _ _ _ h hf0
        · exact fetchStage_cache_preserved _ _ _ _ _ _ _ _ _ _ _ hfail
            (readFromCache_preserves _ _ _ _ _ _ h hf0) hf1
      · exact fetchStage_cache_preserved _ _ _ _ _ _ _ _ _ _ _ hfail
          (readFromCache_preserves _ _ _ _ _ _ h hf0) hf1

/-- C7: the rate-cache contract.  A read returns the stored table exactly
when an entry exists whose age is at most the TTL; an older entry is
evicted and reported absent; a write unconditionally installs the new
table under the base's key with the write timestamp; and when the
upstream fetch fails the handler writes no cache entry and leaves every
still-unexpired entry readable. -/
theorem c7_cache_contract :
    (∀ (ttl now : ℤ) (cache : CacheMap) (base : String),
       alookup cache (getCacheKey base) = none →
       readFromCache ttl now cache base = (none, cache)) ∧
    (∀ (ttl now : ℤ) (cache : CacheMap) (base : String) (e : CEntry),
       alookup cache (getCacheKey base) = some e → now - e.ts ≤ ttl →
       readFromCache ttl now cache base = (some e.data, cache)) ∧
    (∀ (ttl now : ℤ) (cache : CacheMap) (base : String) (e : CEntry),
       alookup cache (getCacheKey base) = some e → ttl < now - e.ts →
       readFromCache ttl now cache base = (none, adel cache (getCacheKey base))) ∧
    (∀ (now : ℤ) (cache : CacheMap) (base : String) (data : Payload),
       alookup (writeToCache now cache base data) (getCacheKey base) =
         some ⟨now, data⟩) ∧
    (∀ (env : HandlerEnv) (req : Req) (cache0 : CacheMap) (t0 t1 : ℤ)
       (nowIso : String) (outcomes : ℕ → AttemptOutcome) (b : String),
       (fetchRates env.retries outcomes).result = none →
       Event.cacheWrite b ∉
         (handler env req cache0 t0 t1 nowIso outcomes).events) ∧
    (∀ (env : HandlerEnv) (req : Req) (cache0 : CacheMap) (t0 t1 : ℤ)
       (nowIso : String) (outcomes : ℕ → AttemptOutcome) (key : String)
       (e : CEntry),
       (fetchRates env.retries outcomes).result = none →
       alookup cache0 key = some e →
       ¬ env.cacheTTL < t0 - e.ts → ¬ env.cacheTTL < t1 - e.ts →
       alookup (handler env req cache0 t0 t1 nowIso outcomes).cache key =
         some e) := by
  refine ⟨readFromCache_absent, readFromCache_fresh, readFromCache_expired,
    ?_, ?_, ?_⟩
  · intro now cache base data
    exact alookup_aset_self _ _ _
  · intro env req cache0 t0 t1 nowIso outcomes b hfail
    rcases hmm : req.method with _ | m
    · simp only [handler, hmm]
      exact handlerCore_no_write_on_fail _ _ _ _ _ _ _ _ hfail
    · by_cases hup : jsToUpper m = "GET"
      · simp only [handler, hmm, hup, ne_eq, not_true_eq_false, if_false]
        exact handlerCore_no_write_on_fail _ _ _ _ _ _ _ _ hfail
      · simp [handler, hmm, hup]
  · intro env req cache0 t0 t1 nowIso outcomes key e hfail h hf0 hf1
    rcases hmm : req.method with _ | m
    · simp only [handler, hmm]
      exact handlerCore_cache_preserved _ _ _ _ _ _ _ _ _ hfail h hf0 hf1
    · by_cases hup : jsToUpper m = "GET"
      · simp only [handler, hmm, hup, ne_eq, not_true_eq_false, if_false]
        exact handlerCore_cache_preserved _ _ _ _ _ _ _ _ _ hfail h hf0 hf1
      · simp [handler, hmm, hup, h]

/-- Witness for C7 at concrete cache states, times and a failing fetch. -/
theorem c7_cache_contract_witness :
    readFromCache 300000 5 [] "USD" = (none, []) ∧
    readFromCache 300000 100 cacheUSD0 "USD" = (some payloadEUR, cacheUSD0) ∧
    readFromCache 300000 400000 cacheUSD0 "USD" =
      (none, adel cacheUSD0 (getCacheKey "USD")) ∧
    alookup (writeToCache 7 [] "USD" payloadEUR) (getCacheKey "USD") =
      some ⟨7, payloadEUR⟩ ∧
    Event.cacheWrite "USD" ∉ (handler ⟨some "key", 300000, 1⟩
        ⟨some "GET", [("from","USD"),("to","JPY")]⟩ cacheUSD0 100 200 "now"
        (fun _ => .thrown "TypeError" "fetch failed")).events ∧
    alookup (handler ⟨some "key", 300000, 1⟩
        ⟨some "GET", [("from","USD"),("to","JPY")]⟩ cacheUSD0 100 200 "now"
        (fun _ => .thrown "TypeError" "fetch failed")).cache "latest:USD" =
      some ⟨0, payloadEUR⟩ := by
  refine ⟨?_, ?_, ?_, ?_, ?_, ?_⟩
  · exact c7_cache_contract.1 300000 5 [] "USD" (by decide)
  · exact c7_cache_contract.2.1 300000 100 cacheUSD0 "USD" ⟨0, payloadEUR⟩
      (by decide) (by decide)
  · exact c7_cache_contract.2.2.1 300000 400000 cacheUSD0 "USD"
      ⟨0, payloadEUR⟩ (by decide) (by decide)
  · exact c7_cache_contract.2.2.2.1 7 [] "USD" payloadEUR
  · exact c7_cache_contract.2.2.2.2.1 ⟨some "key", 300000, 1⟩
      ⟨some "GET", [("from","USD"),("to","JPY")]⟩ cacheUSD0 100 200 "now"
      (fun _ => .thrown "TypeError" "fetch failed") "USD" (by decide)
  · exact c7_cache_contract.2.2.2.2.2 ⟨some "key", 300000, 1⟩
      ⟨some "GET", [("from","USD"),("to","JPY")]⟩ cacheUSD0 100 200 "now"
      (fun _ => .thrown "TypeError" "fetch failed") "latest:USD"
      ⟨0, payloadEUR⟩ (by decide) (by decide) (by decide) (by decide)

/-! ### C2 (amended) -/

/-- C2 (amended): the degraded cache read performed after an upstream
fetch failure is the same TTL-checking `readFromCache` as the normal
read: an entry whose age exceeds the TTL is evicted and reported absent
(first conjunct), and a request whose fetch fails while the base's entry
is older than TTL at both read moments is answered by the static fallback
with the entry evicted — the expired entry is never served as
`cache-fallback` (second conjunct). -/
theorem c2_degraded_read_ttl_check :
    (∀ (ttl now : ℤ) (cache : CacheMap) (base : String) (e : CEntry),
       alookup cache (getCacheKey base) = some e → ttl < now - e.ts →
       readFromCache ttl now cache base =
         (none, adel cache (getCacheKey base))) ∧
    (∀ (env : HandlerEnv) (req : Req) (cache0 : CacheMap) (t0 t1 : ℤ)
       (nowIso : String) (outcomes : ℕ → AttemptOutcome)
       (fromC toC : String) (amount : Option ℚ) (k : String) (e : CEntry),
       req.method = some "GET" →
       validateAndNormalizeQuery req.query = .ok fromC toC amount →
       env.apiKey = some k →
       alookup cache0 (getCacheKey fromC) = some e →
       env.cacheTTL < t0 - e.ts → env.cacheTTL < t1 - e.ts →
       (cache0.map Prod.fst).Nodup →
       (fetchRates env.retries outcomes).result = none →
       bodyGet (handler env req cache0 t0 t1 nowIso outcomes) "source" =
         some (.str "fallback") ∧
       alookup (handler env req cache0 t0 t1 nowIso outcomes).cache
         (getCacheKey fromC) = none) := by
  refine ⟨readFromCache_expired, ?_⟩
  intro env req cache0 t0 t1 nowIso outcomes fromC toC amount k e
    hmm hv hk hcache ht0 ht1 hnd hfail
  rw [handler_eq_core env req cache0 t0 t1 nowIso outcomes
        (Or.inr ⟨"GET", hmm, by decide⟩)]
  simp only [handlerCore, hv, hk]
  rw [readFromCache_expired env.cacheTTL t0 cache0 fromC e hcache ht0]
  simp only [handlerFetchStage, hfail]
  rw [readFromCache_absent env.cacheTTL t1 (adel cache0 (getCacheKey fromC))
        fromC (alookup_adel_self cache0 (getCacheKey fromC) hnd)]
  exact ⟨rfl, alookup_adel_self cache0 (getCacheKey fromC) hnd⟩

/-- Witness for the amended C2 at the concrete expired-entry scenario. -/
theorem c2_degraded_read_ttl_check_witness :
    bodyGet (handler ⟨some "key", 300000, 1⟩
        ⟨some "GET", [("from","USD"),("to","EUR")]⟩ cacheUSD0 400000 400100
        "now" (fun _ => .thrown "SomeError" "socket hang up")) "source" =
      some (.str "fallback") ∧
    alookup (handler ⟨some "key", 300000, 1⟩
        ⟨some "GET", [("from","USD"),("to","EUR")]⟩ cacheUSD0 400000 400100
        "now" (fun _ => .thrown "SomeError" "socket hang up")).cache
      (getCacheKey "USD") = none :=
  c2_degraded_read_ttl_check.2 ⟨some "key", 300000, 1⟩
    ⟨some "GET", [("from","USD"),("to","EUR")]⟩ cacheUSD0 400000 400100
    "now" (fun _ => .thrown "SomeError" "socket hang up") "USD" "EUR" none
    "key" ⟨0, payloadEUR⟩ rfl (by decide) rfl (by decide) (by decide)
    (by decide) (by decide) (by decide)

/-! ### C10 (amended) -/

/-- When every key is an allowed parameter name, the unexpected-parameter
scan finds nothing. -/
theorem firstBadKey_none (ks : List String)
    (h : ∀ k ∈ ks, k ∈ ALLOWED_QUERY_PARAMS) : firstBadKey ks = none := by
  induction ks with
  | nil => rfl
  | cons k rest ih =>
      simp only [firstBadKey, if_pos (h k (by simp))]
      exact ih fun k' hk' => h k' (by simp [hk'])

/-- C10 (amended): for every query whose parameter names are all among
`from`/`to`/`amount`, if `from` or `to` is absent or the empty string,
validation fails with exactly the single missing-parameters message; the
handler then answers 400 with that message (on a GET) and performs no
cache or upstream access.  (With an unexpected parameter name present,
the unexpected-parameter error takes precedence — see the
counterexample.) -/
theorem c10_missing_from_to_message (env : HandlerEnv) (req : Req)
    (cache0 : CacheMap) (t0 t1 : ℤ) (nowIso : String)
    (outcomes : ℕ → AttemptOutcome)
    (hall : ∀ k ∈ req.query.map Prod.fst, k ∈ ALLOWED_QUERY_PARAMS)
    (hmiss : alookup req.query "from" = none ∨
      alookup req.query "from" = some "" ∨
      alookup req.query "to" = none ∨ alookup req.query "to" = some "") :
    validateAndNormalizeQuery req.query =
      .err "Missing required query parameters \"from\" and \"to\"." ∧
    (handler env req cache0 t0 t1 nowIso outcomes).cache = cache0 ∧
    noBackendEvents (handler env req cache0 t0 t1 nowIso outcomes).events = true ∧
    (req.method = some "GET" →
      (handler env req cache0 t0 t1 nowIso outcomes).status = 400 ∧
      bodyGet (handler env req cache0 t0 t1 nowIso outcomes) "error" =
        some (.str "Missing required query parameters \"from\" and \"to\".")) := by
  have hval : validateAndNormalizeQuery req.query =
      .err "Missing required query parameters \"from\" and \"to\"." := by
    simp only [validateAndNormalizeQuery, firstBadKey_none _ hall]
    rcases hmiss with h | h | h | h <;> simp [h]
  refine ⟨hval,
    (handler_validation_err_no_backend env req cache0 t0 t1 nowIso outcomes
      _ hval).1,
    (handler_validation_err_no_backend env req cache0 t0 t1 nowIso outcomes
      _ hval).2, ?_⟩
  intro hg
  rw [handler_eq_core env req cache0 t0 t1 nowIso outcomes
        (Or.inr ⟨"GET", hg, by decide⟩),
      handlerCore_validation_err env req cache0 t0 t1 nowIso outcomes _ hval]
  exact ⟨rfl, rfl⟩

/-- Witness for the amended C10 at the query `{ from: "", to: "USD" }`. -/
theorem c10_missing_from_to_message_witness :
    validateAndNormalizeQuery [("from",""),("to","USD")] =
      .err "Missing required query parameters \"from\" and \"to\"." ∧
    (handler ⟨some "key", 300000, 1⟩
        ⟨some "GET", [("from",""),("to","USD")]⟩ cacheUSD0 0 10 "now"
        (fun _ => .httpOk payloadEUR)).cache = cacheUSD0 ∧
    noBackendEvents (handler ⟨some "key", 300000, 1⟩
        ⟨some "GET", [("from",""),("to","USD")]⟩ cacheUSD0 0 10 "now"
        (fun _ => .httpOk payloadEUR)).events = true ∧
    (Req.method ⟨some "GET", [("from",""),("to","USD")]⟩ = some "GET" →
      (handler ⟨some "key", 300000, 1⟩
          ⟨some "GET", [("from",""),("to","USD")]⟩ cacheUSD0 0 10 "now"
          (fun _ => .httpOk payloadEUR)).status = 400 ∧
      bodyGet (handler ⟨some "key", 300000, 1⟩
          ⟨some "GET", [("from",""),("to","USD")]⟩ cacheUSD0 0 10 "now"
          (fun _ => .httpOk payloadEUR)) "error" =
        some (.str "Missing required query parameters \"from\" and \"to\".")) :=
  c10_missing_from_to_message ⟨some "key", 300000, 1⟩
    ⟨some "GET", [("from",""),("to","USD")]⟩ cacheUSD0 0 10 "now"
    (fun _ => .httpOk payloadEUR) (by decide) (Or.inr (Or.inl (by decide)))

/-! ### C9 -/

/-- C9: on both static-fallback paths — missing API key, and upstream
failure with no usable degraded cache — the serialized body's fields are
exactly `success, rate, convertedAmount, from, to, lastUpdated, source`
(so the `defaulted` flag of the `FallbackRate` never reaches the client),
while the same `defaulted` flag is passed to the logging call of that
path. -/
theorem c9_fallback_defaulted_flag_hidden :
    (∀ (env : HandlerEnv) (req : Req) (cache0 : CacheMap) (t0 t1 : ℤ)
       (nowIso : String) (outcomes : ℕ → AttemptOutcome)
       (fromC toC : String) (amount : Option ℚ),
       (req.method = none ∨ ∃ m, req.method = some m ∧ jsToUpper m = "GET") →
       validateAndNormalizeQuery req.query = .ok fromC toC amount →
       env.apiKey = none →
       (handler env req cache0 t0 t1 nowIso outcomes).body.map Prod.fst =
         ["success", "rate", "convertedAmount", "from", "to", "lastUpdated",
          "source"] ∧
       "defaulted" ∉ (handler env req cache0 t0 t1 nowIso outcomes).body.map
         Prod.fst ∧
       bodyGet (handler env req cache0 t0 t1 nowIso outcomes) "source" =
         some (.str "fallback") ∧
       Event.logWarn "missing-api-key"
           (some (getFallbackRate fromC toC nowIso).defaulted) ∈
         (handler env req cache0 t0 t1 nowIso outcomes).events) ∧
    (∀ (env : HandlerEnv) (req : Req) (cache0 : CacheMap) (t0 t1 : ℤ)
       (nowIso : String) (outcomes : ℕ → AttemptOutcome)
       (fromC toC : String) (amount : Option ℚ) (k : String),
       (req.method = none ∨ ∃ m, req.method = some m ∧ jsToUpper m = "GET") →
       validateAndNormalizeQuery req.query = .ok fromC toC amount →
       env.apiKey = some k →
       cstageRate (readFromCache env.cacheTTL t0 cache0 fromC).1 toC = none →
       (fetchRates env.retries outcomes).result = none →
       cstageRate (readFromCache env.cacheTTL t1
           (readFromCache env.cacheTTL t0 cache0 fromC).2 fromC).1 toC = none →
       (handler env req cache0 t0 t1 nowIso outcomes).body.map Prod.fst =
         ["success", "rate", "convertedAmount", "from", "to", "lastUpdated",
          "source"] ∧
       "defaulted" ∉ (handler env req cache0 t0 t1 nowIso outcomes).body.map
         Prod.fst ∧
       bodyGet (handler env req cache0 t0 t1 nowIso outcomes) "source" =
         some (.str "fallback") ∧
       Event.logWarn "upstream-failed-fallback"
           (some (getFallbackRate fromC toC nowIso).defaulted) ∈
         (handler env req cache0 t0 t1 nowIso outcomes).events) := by
  constructor
  · intro env req cache0 t0 t1 nowIso outcomes fromC toC amount hm hv henv
    rw [handler_eq_core env req cache0 t0 t1 nowIso outcomes hm,
        handlerCore_noApiKey env req cache0 t0 t1 nowIso outcomes fromC toC
          amount hv henv]
    refine ⟨rfl, by simp [successBody], rfl, by simp⟩
  · intro env req cache0 t0 t1 nowIso outcomes fromC toC amount k
      hm hv hk hmiss hfail hmiss2
    rw [handler_eq_core env req cache0 t0 t1 nowIso outcomes hm]
    simp only [handlerCore, hv, hk]
    rcases heq : (readFromCache env.cacheTTL t0 cache0 fromC).1 with _ | cdata
    · simp only [heq, handlerFetchStage, hfail]
      rcases heq2 : (readFromCache env.cacheTTL t1
          (readFromCache env.cacheTTL t0 cache0 fromC).2 fromC).1 with _ | cdata2
      · simp only [heq2, staticFallbackOut]
        refine ⟨rfl, by simp [successBody], rfl, by simp⟩
      · rw [heq2] at hmiss2
        simp only [cstageRate] at hmiss2
        simp only [heq2, hmiss2, staticFallbackOut]
        refine ⟨rfl, by simp [successBody], rfl, by simp⟩
    · rw [heq] at hmiss
      simp only [cstageRate] at hmiss
      simp only [heq, hmiss, handlerFetchStage, hfail]
      rcases heq2 : (readFromCache env.cacheTTL t1
          (readFromCache env.cacheTTL t0 cache0 fromC).2 fromC).1 with _ | cdata2
      · simp only [heq2, staticFallbackOut]
        refine ⟨rfl, by simp [successBody], rfl, by simp⟩
      · rw [heq2] at hmiss2
        simp only [cstageRate] at hmiss2
        simp only [heq2, hmiss2, staticFallbackOut]
        refine ⟨rfl, by simp [successBody], rfl, by simp⟩

/-- Witness for C9 on both static-fallback paths at concrete requests. -/
theorem c9_fallback_defaulted_flag_hidden_witness :
    ((handler ⟨none, 300000, 1⟩ ⟨some "GET", [("from","USD"),("to","EUR")]⟩
        [] 0 10 "now" (fun _ => .httpOk payloadEUR)).body.map Prod.fst =
      ["success", "rate", "convertedAmount", "from", "to", "lastUpdated",
       "source"] ∧
     "defaulted" ∉ (handler ⟨none, 300000, 1⟩
        ⟨some "GET", [("from","USD"),("to","EUR")]⟩ [] 0 10 "now"
        (fun _ => .httpOk payloadEUR)).body.map Prod.fst ∧
     bodyGet (handler ⟨none, 300000, 1⟩
        ⟨some "GET", [("from","USD"),("to","EUR")]⟩ [] 0 10 "now"
        (fun _ => .httpOk payloadEUR)) "source" = some (.str "fallback") ∧
     Event.logWarn "missing-api-key"
         (some (getFallbackRate "USD" "EUR" "now").defaulted) ∈
       (handler ⟨none, 300000, 1⟩ ⟨some "GET", [("from","USD"),("to","EUR")]⟩
        [] 0 10 "now" (fun _ => .httpOk payloadEUR)).events) ∧
    ((handler ⟨some "key", 300000, 1⟩
        ⟨some "GET", [("from","USD"),("to","EUR")]⟩ [] 0 10 "now"
        (fun _ => .thrown "TypeError" "fetch failed")).body.map Prod.fst =
      ["success", "rate", "convertedAmount", "from", "to", "lastUpdated",
       "source"] ∧
     "defaulted" ∉ (handler ⟨some "key", 300000, 1⟩
        ⟨some "GET", [("from","USD"),("to","EUR")]⟩ [] 0 10 "now"
        (fun _ => .thrown "TypeError" "fetch failed")).body.map Prod.fst ∧
     bodyGet (handler ⟨some "key", 300000, 1⟩
        ⟨some "GET", [("from","USD"),("to","EUR")]⟩ [] 0 10 "now"
        (fun _ => .thrown "TypeError" "fetch failed")) "source" =
       some (.str "fallback") ∧
     Event.logWarn "upstream-failed-fallback"
         (some (getFallbackRate "USD" "EUR" "now").defaulted) ∈
       (handler ⟨some "key", 300000, 1⟩
        ⟨some "GET", [("from","USD"),("to","EUR")]⟩ [] 0 10 "now"
        (fun _ => .thrown "TypeError" "fetch failed")).events) :=
  ⟨c9_fallback_defaulted_flag_hidden.1 ⟨none, 300000, 1⟩
      ⟨some "GET", [("from","USD"),("to","EUR")]⟩ [] 0 10 "now"
      (fun _ => .httpOk payloadEUR) "USD" "EUR" none
      (Or.inr ⟨"GET", rfl, by decide⟩) (by decide) rfl,
   c9_fallback_defaulted_flag_hidden.2 ⟨some "key", 300000, 1⟩
      ⟨some "GET", [("from","USD"),("to","EUR")]⟩ [] 0 10 "now"
      (fun _ => .thrown "TypeError" "fetch failed") "USD" "EUR" none "key"
      (Or.inr ⟨"GET", rfl, by decide⟩) (by decide) rfl (by decide) (by decide)
      (by decide)⟩

/-! ### C8 -/

/-- A query containing a key outside the allowed set makes the
unexpected-parameter scan report some bad key. -/
theorem firstBadKey_bad (ks : List String) (k : String) (hk : k ∈ ks)
    (hbad : k ∉ ALLOWED_QUERY_PARAMS) :
    ∃ k', k' ∉ ALLOWED_QUERY_PARAMS ∧ firstBadKey ks = some k' := by
  induction ks with
  | nil => cases hk
  | cons k0 rest ih =>
      by_cases h0 : k0 ∈ ALLOWED_QUERY_PARAMS
      · rcases List.mem_cons.mp hk with rfl | hmem
        · exact absurd h0 hbad
        · obtain ⟨k', h1, h2⟩ := ih hmem
          exact ⟨k', h1, by simp [firstBadKey, h0, h2]⟩
      · exact ⟨k0, h0, by simp [firstBadKey, h0]⟩

theorem takeDigs_append (l : List Char) :
    (takeDigs l).1 ++ (takeDigs l).2 = l := by
  induction l with
  | nil => rfl
  | cons c rest ih =>
      by_cases h : isDig c = true
      · simp [takeDigs, h, ih]
      · simp [takeDigs, h]

theorem takeDigs_digits (l : List Char) :
    ∀ c ∈ (takeDigs l).1, isDig c = true := by
  induction l with
  | nil => intro c hc; cases hc
  | cons c0 rest ih =>
      by_cases h : isDig c0 = true
      · intro c hc
        simp only [takeDigs, h, if_true] at hc
        rcases List.mem_cons.mp hc with rfl | hc2
        · exact h
        · exact ih c hc2
      · intro c hc
        simp [takeDigs, h] at hc

/-- A list fully consumed by the digit scanner is all digits. -/
theorem takeDigs_rest_all (m : List Char) (h2 : (takeDigs m).2 = []) :
    ∀ c ∈ m, isDig c = true := by
  intro c hc
  rw [← takeDigs_append m, h2, List.append_nil] at hc
  exact takeDigs_digits m c hc

/-- From a successful body match, either everything after the integer
digits is empty or it is a decimal point followed by a fully consumed
digit run. -/
theorem splitBody_conds (neg : Bool) (l1 : List Char)
    (x : Bool × List Char × List Char) (h : splitBody neg l1 = some x) :
    (takeDigs l1).2 = [] ∨
    ((takeDigs l1).2.headD ' ' = '.' ∧
     (takeDigs ((takeDigs l1).2.tail)).2 = []) := by
  simp only [splitBody] at h
  split_ifs at h with hd hr hdot hsub
  · exact Or.inl (by simpa using hr)
  · refine Or.inr ⟨hdot, ?_⟩
    simp only [Bool.or_eq_true, not_or, Bool.not_eq_true] at hsub
    have h2 : (takeDigs ((takeDigs l1).2.tail)).2.isEmpty = true := by
      simpa using hsub.2
    exact List.isEmpty_iff.mp h2

/-- Every character of a sign-stripped body match is a decimal point or a
digit. -/
theorem splitBody_chars (neg : Bool) (m : List Char)
    (x : Bool × List Char × List Char) (h : splitBody neg m = some x) :
    ∀ c ∈ m, c = '.' ∨ isDig c = true := by
  have hr := splitBody_conds neg m x h
  intro c hc
  rw [← takeDigs_append m] at hc
  rcases List.mem_append.mp hc with hc1 | hc2
  · exact Or.inr (takeDigs_digits m c hc1)
  · rcases hrr : (takeDigs m).2 with _ | ⟨c0, r2⟩
    · rw [hrr] at hc2; cases hc2
    · rw [hrr] at hc2 hr
      rcases hr with hr | ⟨hdot, htail⟩
      · cases hr
      · simp only [List.headD_cons] at hdot
        subst hdot
        rcases List.mem_cons.mp hc2 with rfl | hc3
        · exact Or.inl rfl
        · simp only [List.tail_cons] at htail
          exact Or.inr (takeDigs_rest_all r2 htail c hc3)

/-- Every character of a string matching the plain-decimal regex is a
sign, a decimal point or a digit — so no exponent notation (`e`/`E`) and
no other letter can match. -/
theorem splitAmount_mem (l : List Char) (x : Bool × List Char × List Char)
    (h : splitAmount l = some x) :
    ∀ c ∈ l, c = '+' ∨ c = '-' ∨ c = '.' ∨ isDig c = true := by
  rcases l with _ | ⟨c0, rest⟩
  · intro c hc; cases hc
  · by_cases hp : c0 = '+'
    · subst hp
      rw [splitAmount, show stripSign ('+' :: rest) = (false, rest) from by
        simp [stripSign]] at h
      intro c hc
      rcases List.mem_cons.mp hc with rfl | hc2
      · exact Or.inl rfl
      · rcases splitBody_chars false rest x h c hc2 with h1 | h1
        · exact Or.inr (Or.inr (Or.inl h1))
        · exact Or.inr (Or.inr (Or.inr h1))
    · by_cases hm : c0 = '-'
      · subst hm
        rw [splitAmount, show stripSign ('-' :: rest) = (true, rest) from by
          simp [stripSign]] at h
        intro c hc
        rcases List.mem_cons.mp hc with rfl | hc2
        · exact Or.inr (Or.inl rfl)
        · rcases splitBody_chars true rest x h c hc2 with h1 | h1
          · exact Or.inr (Or.inr (Or.inl h1))
          · exact Or.inr (Or.inr (Or.inr h1))
      · rw [splitAmount, show stripSign (c0 :: rest) = (false, c0 :: rest) from by
          simp [stripSign, hp, hm]] at h
        intro c hc
        rcases splitBody_chars false (c0 :: rest) x h c hc with h1 | h1
        · exact Or.inr (Or.inr (Or.inl h1))
        · exact Or.inr (Or.inr (Or.inr h1))

/-- The empty list never matches the amount regex. -/
theorem splitAmount_nil : splitAmount [] = none := rfl

/-- On a query with valid `from`/`to` and an `amount` parameter, the
validator's result is the amount check. -/
theorem validate_with_amount (f t a : String) (hf : f ≠ "") (ht : t ≠ "")
    (hiso : (isoCurrencyTest (jsToUpper f) && isoCurrencyTest (jsToUpper t)) = true)
    (hcur : (decide (jsToUpper f ∈ ALLOWED_CURRENCIES) &&
             decide (jsToUpper t ∈ ALLOWED_CURRENCIES)) = true) :
    validateAndNormalizeQuery [("from", f), ("to", t), ("amount", a)] =
      checkAmount (jsToUpper f) (jsToUpper t) a := by
  have hbk : firstBadKey (List.map Prod.fst
      [("from", f), ("to", t), ("amount", a)]) = none := rfl
  simp only [validateAndNormalizeQuery, hbk, alookup]
  simp [hf, ht, hiso, hcur]

/-- C8: the validator fails closed with no side effects.  Any query key
outside `from`/`to`/`amount` yields the unexpected-parameter error; with
valid `from`/`to`, an amount in exponent notation or otherwise failing
the plain-decimal regex yields the plain-decimal error, a negative value
the non-negativity error, more than 8 fractional digits the decimal-place
error, and magnitude above 10^12 the range error (each the distinct
message of that failing check); and every validation failure leaves the
cache untouched, with no cache or upstream event recorded. -/
theorem c8_validator_fails_closed :
    (∀ (query : List (String × String)) (k : String),
       k ∈ query.map Prod.fst → k ∉ ALLOWED_QUERY_PARAMS →
       ∃ k', k' ∉ ALLOWED_QUERY_PARAMS ∧
         validateAndNormalizeQuery query =
           .err ("Unexpected parameter " ++ "\x27" ++ k' ++ "\x27.")) ∧
    (∀ (f t a : String), f ≠ "" → t ≠ "" →
       (isoCurrencyTest (jsToUpper f) && isoCurrencyTest (jsToUpper t)) = true →
       (decide (jsToUpper f ∈ ALLOWED_CURRENCIES) &&
        decide (jsToUpper t ∈ ALLOWED_CURRENCIES)) = true →
       'e' ∈ (jsTrim a).toList ∨ 'E' ∈ (jsTrim a).toList →
       validateAndNormalizeQuery [("from", f), ("to", t), ("amount", a)] =
         .err "\"amount\" must be a plain decimal number without exponent.") ∧
    (∀ (f t a : String), f ≠ "" → t ≠ "" →
       (isoCurrencyTest (jsToUpper f) && isoCurrencyTest (jsToUpper t)) = true →
       (decide (jsToUpper f ∈ ALLOWED_CURRENCIES) &&
        decide (jsToUpper t ∈ ALLOWED_CURRENCIES)) = true →
       splitAmount (jsTrim a).toList = none → jsTrim a ≠ "" →
       validateAndNormalizeQuery [("from", f), ("to", t), ("amount", a)] =
         .err "\"amount\" must be a plain decimal number without exponent.") ∧
    (∀ (f t a : String) (neg : Bool) (d d2 : List Char), f ≠ "" → t ≠ "" →
       (isoCurrencyTest (jsToUpper f) && isoCurrencyTest (jsToUpper t)) = true →
       (decide (jsToUpper f ∈ ALLOWED_CURRENCIES) &&
        decide (jsToUpper t ∈ ALLOWED_CURRENCIES)) = true →
       splitAmount (jsTrim a).toList = some (neg, d, d2) →
       amtVal neg d d2 < 0 → |amtVal neg d d2| ≤ MAX_AMOUNT →
       validateAndNormalizeQuery [("from", f), ("to", t), ("amount", a)] =
         .err "\"amount\" must be zero or a positive value.") ∧
    (∀ (f t a : String) (neg : Bool) (d d2 : List Char), f ≠ "" → t ≠ "" →
       (isoCurrencyTest (jsToUpper f) && isoCurrencyTest (jsToUpper t)) = true →
       (decide (jsToUpper f ∈ ALLOWED_CURRENCIES) &&
        decide (jsToUpper t ∈ ALLOWED_CURRENCIES)) = true →
       splitAmount (jsTrim a).toList = some (neg, d, d2) →
       0 ≤ amtVal neg d d2 → |amtVal neg d d2| ≤ MAX_AMOUNT →
       MAX_DECIMALS < d2.length →
       validateAndNormalizeQuery [("from", f), ("to", t), ("amount", a)] =
         .err "\"amount\" may have at most 8 decimal places.") ∧
    (∀ (f t a : String) (neg : Bool) (d d2 : List Char), f ≠ "" → t ≠ "" →
       (isoCurrencyTest (jsToUpper f) && isoCurrencyTest (jsToUpper t)) = true →
       (decide (jsToUpper f ∈ ALLOWED_CURRENCIES) &&
        decide (jsToUpper t ∈ ALLOWED_CURRENCIES)) = true →
       splitAmount (jsTrim a).toList = some (neg, d, d2) →
       MAX_AMOUNT < |amtVal neg d d2| →
       validateAndNormalizeQuery [("from", f), ("to", t), ("amount", a)] =
         .err "\"amount\" is out of allowed range.") ∧
    (∀ (env : HandlerEnv) (req : Req) (cache0 : CacheMap) (t0 t1 : ℤ)
       (nowIso : String) (outcomes : ℕ → AttemptOutcome) (msg : String),
       validateAndNormalizeQuery req.query = .err msg →
       (handler env req cache0 t0 t1 nowIso outcomes).cache = cache0 ∧
       noBackendEvents (handler env req cache0 t0 t1 nowIso outcomes).events =
         true) := by
  have hlen : ∀ (s : String), s.toList ≠ [] → ¬ s.length = 0 := by
    intro s hne h0
    exact hne (List.length_eq_zero.mp h0)
  have hmk : ∀ (s : String), s.toList = [] → s = "" := by
    intro s h0
    cases s with
    | mk data =>
        simp only [String.toList] at h0
        subst h0
        rfl
  have hsome_len : ∀ (a : String) (y : Bool × List Char × List Char),
      splitAmount (jsTrim a).toList = some y → ¬ (jsTrim a).length = 0 := by
    intro a y hs
    refine hlen _ fun h0 => ?_
    rw [h0, splitAmount_nil] at hs
    exact Option.noConfusion hs
  refine ⟨?_, ?_, ?_, ?_, ?_, ?_, ?_⟩
  · intro query k hk hbad
    obtain ⟨k', h1, h2⟩ := firstBadKey_bad (query.map Prod.fst) k hk hbad
    exact ⟨k', h1, by simp [validateAndNormalizeQuery, h2]⟩
  · intro f t a hf ht hiso hcur he
    have hs : splitAmount (jsTrim a).toList = none := by
      rcases hsp : splitAmount (jsTrim a).toList with _ | x
      · rfl
      · exfalso
        rcases he with he | he
        · rcases splitAmount_mem _ x hsp 'e' he with h1 | h1 | h1 | h1 <;>
            exact absurd h1 (by decide)
        · rcases splitAmount_mem _ x hsp 'E' he with h1 | h1 | h1 | h1 <;>
            exact absurd h1 (by decide)
    have hne : (jsTrim a).toList ≠ [] := by
      intro h0
      rcases he with he | he <;> (rw [h0] at he; cases he)
    simp only [String.toList] at hs
    rw [validate_with_amount f t a hf ht hiso hcur]
    simp [checkAmount, hlen _ hne, hs]
  · intro f t a hf ht hiso hcur hs hne
    have hne' : (jsTrim a).toList ≠ [] := fun h0 => hne (hmk _ h0)
    simp only [String.toList] at hs
    rw [validate_with_amount f t a hf ht hiso hcur]
    simp [checkAmount, hlen _ hne', hs]
  · intro f t a neg d d2 hf ht hiso hcur hs hneg habs
    rw [validate_with_amount f t a hf ht hiso hcur]
    simp only [checkAmount, if_neg (hsome_len a _ hs), hs]
    rw [if_neg (not_lt.mpr habs), if_pos hneg]
  · intro f t a neg d d2 hf ht hiso hcur hs h0 habs hd
    rw [validate_with_amount f t a hf ht hiso hcur]
    simp only [checkAmount, if_neg (hsome_len a _ hs), hs]
    rw [if_neg (not_lt.mpr habs), if_neg (not_lt.mpr h0), if_pos hd]
  · intro f t a neg d d2 hf ht hiso hcur hs habs
    rw [validate_with_amount f t a hf ht hiso hcur]
    simp only [checkAmount, if_neg (hsome_len a _ hs), hs]
    rw [if_pos habs]
  · intro env req cache0 t0 t1 nowIso outcomes msg hv
    exact handler_validation_err_no_backend env req cache0 t0 t1 nowIso
      outcomes msg hv

/-- Witness for C8: one concrete query per malformation class — an
unknown parameter, `1e5`, `abc`, `-5`, `0.123456789`, `2000000000000` —
and the zero-side-effect fact at the unknown-parameter query. -/
theorem c8_validator_fails_closed_witness :
    (∃ k', k' ∉ ALLOWED_QUERY_PARAMS ∧
       validateAndNormalizeQuery [("x","1")] =
         .err ("Unexpected parameter " ++ "\x27" ++ k' ++ "\x27.")) ∧
    validateAndNormalizeQuery [("from","USD"),("to","EUR"),("amount","1e5")] =
      .err "\"amount\" must be a plain decimal number without exponent." ∧
    validateAndNormalizeQuery [("from","USD"),("to","EUR"),("amount","abc")] =
      .err "\"amount\" must be a plain decimal number without exponent." ∧
    validateAndNormalizeQuery [("from","USD"),("to","EUR"),("amount","-5")] =
      .err "\"amount\" must be zero or a positive value." ∧
    validateAndNormalizeQuery
        [("from","USD"),("to","EUR"),("amount","0.123456789")] =
      .err "\"amount\" may have at most 8 decimal places." ∧
    validateAndNormalizeQuery
        [("from","USD"),("to","EUR"),("amount","2000000000000")] =
      .err "\"amount\" is out of allowed range." ∧
    ((handler ⟨some "key", 300000, 1⟩ ⟨some "GET", [("x","1")]⟩ cacheUSD0 0
        10 "now" (fun _ => .httpOk payloadEUR)).cache = cacheUSD0 ∧
     noBackendEvents (handler ⟨some "key", 300000, 1⟩
        ⟨some "GET", [("x","1")]⟩ cacheUSD0 0 10 "now"
        (fun _ => .httpOk payloadEUR)).events = true) := by
  have e0 : digitsVal [] = 0 := rfl
  have e5 : digitsVal ['5'] = 5 := by decide
  have ez : digitsVal ['0'] = 0 := by decide
  have e9 : digitsVal ['1','2','3','4','5','6','7','8','9'] = 123456789 := by
    decide
  have e13 : digitsVal
      ['2','0','0','0','0','0','0','0','0','0','0','0','0'] =
      2000000000000 := by decide
  have hval5 : amtVal true ['5'] [] = -5 := by
    simp only [amtVal, e5, e0]
    norm_num
  have hval9 : amtVal false ['0'] ['1','2','3','4','5','6','7','8','9'] =
      123456789 / 10 ^ 9 := by
    simp only [amtVal, ez, e9]
    norm_num
  have hval13 : amtVal false
      ['2','0','0','0','0','0','0','0','0','0','0','0','0'] [] =
      2000000000000 := by
    simp only [amtVal, e13, e0]
    norm_num
  refine ⟨?_, ?_, ?_, ?_, ?_, ?_, ?_⟩
  · exact c8_validator_fails_closed.1 [("x","1")] "x" (by decide) (by decide)
  · exact c8_validator_fails_closed.2.1 "USD" "EUR" "1e5" (by decide)
      (by decide) (by decide) (by decide) (Or.inl (by decide))
  · exact c8_validator_fails_closed.2.2.1 "USD" "EUR" "abc" (by decide)
      (by decide) (by decide) (by decide) (by decide) (by decide)
  · exact c8_validator_fails_closed.2.2.2.1 "USD" "EUR" "-5" true ['5'] []
      (by decide) (by decide) (by decide) (by decide) (by decide)
      (by rw [hval5]; norm_num)
      (by rw [hval5, abs_of_nonpos (by norm_num)]; norm_num [MAX_AMOUNT])
  · exact c8_validator_fails_closed.2.2.2.2.1 "USD" "EUR" "0.123456789"
      false ['0'] ['1','2','3','4','5','6','7','8','9'] (by decide)
      (by decide) (by decide) (by decide) (by decide)
      (by rw [hval9]; norm_num)
      (by rw [hval9, abs_of_nonneg (by norm_num)]; norm_num [MAX_AMOUNT])
      (by decide)
  · exact c8_validator_fails_closed.2.2.2.2.2.1 "USD" "EUR" "2000000000000"
      false ['2','0','0','0','0','0','0','0','0','0','0','0','0'] []
      (by decide) (by decide) (by decide) (by decide) (by decide)
      (by rw [hval13, abs_of_nonneg (by norm_num)]; norm_num [MAX_AMOUNT])
  · exact c8_validator_fails_closed.2.2.2.2.2.2 ⟨some "key", 300000, 1⟩
      ⟨some "GET", [("x","1")]⟩ cacheUSD0 0 10 "now"
      (fun _ => .httpOk payloadEUR) ("Unexpected parameter " ++ "\x27" ++
        "x" ++ "\x27.") (by decide)

end Convert
